import Mathlib

/-! jolt-purego: a shallow embedding of the Go wrapper around the joltc C API.

The package `jolt` loads the joltc shared library, binds 65 Go function variables to
C symbols and forwards every call.  The embedding keeps that shape:

* Go values become Lean values (`uint32`, `uintptr` are `Nat`, `int32` and `int` are `Int`,
  a `float32` is its IEEE-754 bit pattern, `error` is `Option String` with `none` for nil);
* a `float32` handed by value to a native function goes through the conversion purego
  applies to it (`passFloat32`); what is handed by pointer reaches the library as it is;
* the package-level variables (`initialized`, `lib`, the function variables of symbols.go)
  are the fields of `World`;
* the native library is outside the repository: its return values come from a record of
  functions `Joltc` that may depend on every native call made so far, and every native call
  the wrapper makes is appended to `World.calls` together with the value it returned;
* a Go function is a `GoM α`: from a world it either returns a value or panics, and in both
  cases yields the world reached (so that what happened before a panic stays visible);
* a pointer that the source dereferences without a check is a plain value when the claims
  do not speak about nil, and an `Option` where they do (the three filter references of
  `PhysicsSystemConfig`, the result of `windows.NewLazyDLL`);
* a method that assigns through its receiver returns the receiver after the call.
-/

namespace Jolt

/-! ## Machine integers and plain value types (types.go) -/

/-- Go `uintptr`: an address-sized unsigned integer, used for every native handle. -/
abbrev uintptr := Nat

/-- Conversion `int32(x)` of a wider signed integer: two's complement truncation. -/
def toInt32 (x : Int) : Int := (x + 2 ^ 31) % 2 ^ 32 - 2 ^ 31

/-- Go `float32`, represented by its IEEE-754 bit pattern; the wrapper only forwards floats. -/
structure float32 where
  bits : Nat
deriving DecidableEq, Repr

/-- Whether the bit pattern is a NaN: all eight exponent bits set and a non-zero fraction. -/
def float32.isNaN (f : float32) : Bool :=
  f.bits / 2 ^ 23 % 256 = 255 && f.bits % 2 ^ 23 ≠ 0

/-- A float32 argument passed by value, as it reaches the C function.  The function
variables are bound by `purego.RegisterLibFunc`, and purego reads such an argument as a
float64 and converts it back (`float32(v.Float())`).  That round trip is exact for every
number, both zeros and both infinities; on a NaN the conversion sets the quiet bit (bit 22)
and keeps sign and payload, so a signalling NaN such as 0x7F800001 arrives as 0x7FC00001. -/
def passFloat32 (f : float32) : float32 :=
  if f.isNaN then ⟨f.bits ||| 0x400000⟩ else f

/-- Vec3 of types.go. -/
structure Vec3 where
  X : float32
  Y : float32
  Z : float32
deriving DecidableEq, Repr

/-- Quat of types.go, component order (X, Y, Z, W), W the scalar part. -/
structure Quat where
  X : float32
  Y : float32
  Z : float32
  W : float32
deriving DecidableEq, Repr

/-- BodyID of types.go (`uint32`). -/
abbrev BodyID := Nat

/-- ObjectLayer of types.go (`uint32`). -/
abbrev ObjectLayer := Nat

/-- BroadPhaseLayer of types.go (`uint8`). -/
abbrev BroadPhaseLayer := Nat

/-- MotionType of types.go (`int32`). -/
abbrev MotionType := Int

def MotionTypeStatic : MotionType := 0
def MotionTypeKinematic : MotionType := 1
def MotionTypeDynamic : MotionType := 2

/-- Activation of types.go (`int32`). -/
abbrev Activation := Int

def Activate : Activation := 0
def DontActivate : Activation := 1

/-- PhysicsUpdateError of types.go (`int32`). -/
abbrev PhysicsUpdateError := Int

def PhysicsUpdateErrorNone : PhysicsUpdateError := 0
def PhysicsUpdateErrorManifoldCacheFull : PhysicsUpdateError := 1 <<< (0 : Int)
def PhysicsUpdateErrorBodyPairCacheFull : PhysicsUpdateError := 1 <<< (1 : Int)
def PhysicsUpdateErrorContactConstraintFull : PhysicsUpdateError := 1 <<< (2 : Int)

/-! ## symbols.go: the function variables and the structs that cross the boundary -/

/-- The 65 function variables declared in symbols.go, in declaration order. -/
inductive FnVar
  | jphInit
  | jphShutdown
  | jphJobSystemThreadPoolCreate
  | jphJobSystemDestroy
  | jphBroadPhaseLayerInterfaceTableCreate
  | jphBroadPhaseLayerInterfaceTableMapObjectToBroadPhaseLayer
  | jphObjectLayerPairFilterTableCreate
  | jphObjectLayerPairFilterTableEnableCollision
  | jphObjectLayerPairFilterTableDisableCollision
  | jphObjectVsBroadPhaseLayerFilterTableCreate
  | jphPhysicsSystemCreate
  | jphPhysicsSystemDestroy
  | jphPhysicsSystemOptimizeBroadPhase
  | jphPhysicsSystemUpdate
  | jphPhysicsSystemGetBodyInterface
  | jphPhysicsSystemSetGravity
  | jphPhysicsSystemGetGravity
  | jphPhysicsSystemGetNumBodies
  | jphPhysicsSystemGetNumActiveBodies
  | jphPhysicsSystemGetMaxBodies
  | jphBoxShapeCreate
  | jphBoxShapeGetHalfExtent
  | jphSphereShapeCreate
  | jphSphereShapeGetRadius
  | jphCapsuleShapeCreate
  | jphShapeDestroy
  | jphBodyCreationSettingsCreate3
  | jphBodyCreationSettingsDestroy
  | jphBodyCreationSettingsSetLinearVelocity
  | jphBodyCreationSettingsGetLinearVelocity
  | jphBodyCreationSettingsSetFriction
  | jphBodyCreationSettingsGetFriction
  | jphBodyCreationSettingsSetRestitution
  | jphBodyCreationSettingsGetRestitution
  | jphBodyCreationSettingsSetGravityFactor
  | jphBodyCreationSettingsGetGravityFactor
  | jphBodyCreationSettingsSetAllowSleeping
  | jphBodyCreationSettingsGetAllowSleeping
  | jphBodyCreationSettingsSetMotionQuality
  | jphBodyCreationSettingsGetMotionQuality
  | jphBodyInterfaceCreateAndAddBody
  | jphBodyInterfaceRemoveAndDestroyBody
  | jphBodyInterfaceRemoveBody
  | jphBodyInterfaceDestroyBody
  | jphBodyInterfaceIsAdded
  | jphBodyInterfaceSetLinearVelocity
  | jphBodyInterfaceGetLinearVelocity
  | jphBodyInterfaceGetCenterOfMassPosition
  | jphBodyInterfaceSetPosition
  | jphBodyInterfaceGetPosition
  | jphBodyInterfaceSetRotation
  | jphBodyInterfaceGetRotation
  | jphBodyInterfaceActivateBody
  | jphBodyInterfaceDeactivateBody
  | jphBodyInterfaceIsActive
  | jphBodyInterfaceAddForce
  | jphBodyInterfaceAddImpulse
  | jphBodyInterfaceSetFriction
  | jphBodyInterfaceGetFriction
  | jphBodyInterfaceSetRestitution
  | jphBodyInterfaceGetRestitution
  | jphBodyInterfaceSetGravityFactor
  | jphBodyInterfaceGetGravityFactor
  | jphBodyInterfaceGetMotionType
  | jphBodyInterfaceSetMotionType
deriving DecidableEq, Repr

/-- Mirror of the C struct JobSystemThreadPoolConfig (symbols.go). -/
structure jobSystemThreadPoolConfig where
  MaxJobs : Nat
  MaxBarrier : Nat
  NumThreads : Int
deriving DecidableEq, Repr

/-- Mirror of the C struct JPH_PhysicsSystemSettings (symbols.go); the padding word is
never written and stays zero. -/
structure physicsSystemSettings where
  MaxBodies : Nat
  NumBodyMutexes : Nat
  MaxBodyPairs : Nat
  MaxContactConstraints : Nat
  BroadPhaseLayerInterface : uintptr
  ObjectLayerPairFilter : uintptr
  ObjectVsBroadPhaseLayerFilter : uintptr
deriving DecidableEq, Repr

/-! ## The native boundary -/

/-- One call that crossed into the joltc library: the C function, the arguments as they
reached it and, for a function with a result, the value it returned. -/
inductive NativeCall
  | Init (ret : Bool)
  | Shutdown
  | JobSystemThreadPoolCreate (config : jobSystemThreadPoolConfig) (ret : uintptr)
  | JobSystemDestroy (jobSystem : uintptr)
  | BroadPhaseLayerInterfaceTableCreate (numObjectLayers numBroadPhaseLayers : Nat)
      (ret : uintptr)
  | BroadPhaseLayerInterfaceTableMapObjectToBroadPhaseLayer (bpInterface : uintptr)
      (objectLayer : Nat) (broadPhaseLayer : Nat)
  | ObjectLayerPairFilterTableCreate (numObjectLayers : Nat) (ret : uintptr)
  | ObjectLayerPairFilterTableEnableCollision (filter : uintptr) (layer1 layer2 : Nat)
  | ObjectLayerPairFilterTableDisableCollision (filter : uintptr) (layer1 layer2 : Nat)
  | ObjectVsBroadPhaseLayerFilterTableCreate (bpInterface : uintptr)
      (numBroadPhaseLayers : Nat) (objectFilter : uintptr) (numObjectLayers : Nat)
      (ret : uintptr)
  | PhysicsSystemCreate (settings : physicsSystemSettings) (ret : uintptr)
  | PhysicsSystemDestroy (system : uintptr)
  | PhysicsSystemUpdate (system : uintptr) (deltaTime : float32) (collisionSteps : Int)
      (jobSystem : uintptr) (ret : Int)
  | PhysicsSystemGetBodyInterface (system : uintptr) (ret : uintptr)
  | BoxShapeCreate (halfExtent : Vec3) (convexRadius : float32) (ret : uintptr)
  | SphereShapeCreate (radius : float32) (ret : uintptr)
  | CapsuleShapeCreate (halfHeight radius : float32) (ret : uintptr)
  | ShapeDestroy (shape : uintptr)
  | BodyCreationSettingsCreate3 (shape : uintptr) (position : Vec3) (rotation : Quat)
      (motionType : Int) (objectLayer : Nat) (ret : uintptr)
  | BodyCreationSettingsDestroy (settings : uintptr)
  | BodyInterfaceCreateAndAddBody (bi settings : uintptr) (activation : Int) (ret : Nat)
  | BodyInterfaceRemoveAndDestroyBody (bi : uintptr) (bodyID : Nat)
  | BodyInterfaceRemoveBody (bi : uintptr) (bodyID : Nat)
  | BodyInterfaceDestroyBody (bi : uintptr) (bodyID : Nat)
  | BodyInterfaceSetLinearVelocity (bi : uintptr) (bodyID : Nat) (velocity : Vec3)
  | BodyInterfaceGetLinearVelocity (bi : uintptr) (bodyID : Nat) (ret : Vec3)
  | BodyInterfaceSetPosition (bi : uintptr) (bodyID : Nat) (position : Vec3)
      (activation : Int)
  | BodyInterfaceSetRotation (bi : uintptr) (bodyID : Nat) (rotation : Quat)
      (activation : Int)
  | BodyInterfaceSetFriction (bi : uintptr) (bodyID : Nat) (friction : float32)
  | BodyInterfaceSetRestitution (bi : uintptr) (bodyID : Nat) (restitution : float32)
  | BodyInterfaceSetGravityFactor (bi : uintptr) (bodyID : Nat) (value : float32)
  | BodyInterfaceSetMotionType (bi : uintptr) (bodyID : Nat) (motionType : Int)
      (activation : Int)
deriving DecidableEq, Repr

/-- What the joltc library answers.  Each field gives the result of one C function with a
return value (or an out-parameter) from the native calls made so far and the arguments;
functions without a result need no entry.  Nothing is assumed about these answers. -/
structure Joltc where
  Init : List NativeCall → Bool
  JobSystemThreadPoolCreate : List NativeCall → jobSystemThreadPoolConfig → uintptr
  BroadPhaseLayerInterfaceTableCreate : List NativeCall → Nat → Nat → uintptr
  ObjectLayerPairFilterTableCreate : List NativeCall → Nat → uintptr
  ObjectVsBroadPhaseLayerFilterTableCreate :
    List NativeCall → uintptr → Nat → uintptr → Nat → uintptr
  PhysicsSystemCreate : List NativeCall → physicsSystemSettings → uintptr
  PhysicsSystemUpdate : List NativeCall → uintptr → float32 → Int → uintptr → Int
  PhysicsSystemGetBodyInterface : List NativeCall → uintptr → uintptr
  BoxShapeCreate : List NativeCall → Vec3 → float32 → uintptr
  SphereShapeCreate : List NativeCall → float32 → uintptr
  CapsuleShapeCreate : List NativeCall → float32 → float32 → uintptr
  BodyCreationSettingsCreate3 :
    List NativeCall → uintptr → Vec3 → Quat → Int → Nat → uintptr
  BodyInterfaceCreateAndAddBody : List NativeCall → uintptr → uintptr → Int → Nat
  BodyInterfaceGetLinearVelocity : List NativeCall → uintptr → Nat → Vec3

/-! ## Go control flow: normal return or panic, over the package state -/

/-- What a Go panic carries. -/
inductive GoPanic
  | nilPointerDereference
  | nilFuncCall
  | value (msg : String)
  | dependency (origin : String)
deriving DecidableEq, Repr

/-- How a Go call ends. -/
inductive Outcome (α : Type)
  | returned (v : α)
  | panicked (p : GoPanic)
deriving DecidableEq, Repr

/-- The package-level state of `jolt` plus the log of native calls. -/
structure World where
  initialized : Bool
  lib : uintptr
  bound : List FnVar
  calls : List NativeCall
deriving DecidableEq, Repr

/-- The state of a freshly started process: nothing initialised, bound or called. -/
def World.fresh : World := ⟨false, 0, [], []⟩

/-- A Go computation over the package state. -/
def GoM (α : Type) : Type := World → Outcome α × World

/-- Run a Go computation from a world. -/
def GoM.run {α : Type} (m : GoM α) (w : World) : Outcome α × World := m w

/-- Normal return. -/
def GoM.ret {α : Type} (a : α) : GoM α := fun w => (Outcome.returned a, w)

/-- Sequencing: a panic in the first part ends the whole computation. -/
def GoM.andThen {α β : Type} (m : GoM α) (f : α → GoM β) : GoM β := fun w =>
  match m w with
  | (Outcome.returned a, w1) => f a w1
  | (Outcome.panicked p, w1) => (Outcome.panicked p, w1)

instance : Monad GoM where
  pure := GoM.ret
  bind := GoM.andThen

/-- The statement `panic(p)`. -/
def goPanic {α : Type} (p : GoPanic) : GoM α := fun w => (Outcome.panicked p, w)

/-- Go `error`: nil or a message. -/
abbrev error := Option String

/-- Calling through a function variable of symbols.go: a nil variable panics, a bound one
enters the library, whose answer is logged with the call. -/
def callNative {α : Type} (f : FnVar) (answer : List NativeCall → α)
    (entry : α → NativeCall) : GoM α := fun w =>
  if f ∈ w.bound then
    (Outcome.returned (answer w.calls), { w with calls := w.calls ++ [entry (answer w.calls)] })
  else
    (Outcome.panicked GoPanic.nilFuncCall, w)

/-! ## The function variables as callables (symbols.go) -/

def jphInit (N : Joltc) : GoM Bool :=
  callNative FnVar.jphInit N.Init NativeCall.Init

def jphShutdown : GoM Unit :=
  callNative FnVar.jphShutdown (fun _ => ()) (fun _ => NativeCall.Shutdown)

def jphJobSystemThreadPoolCreate (N : Joltc) (config : jobSystemThreadPoolConfig) :
    GoM uintptr :=
  callNative FnVar.jphJobSystemThreadPoolCreate
    (fun h => N.JobSystemThreadPoolCreate h config)
    (NativeCall.JobSystemThreadPoolCreate config)

def jphJobSystemDestroy (jobSystem : uintptr) : GoM Unit :=
  callNative FnVar.jphJobSystemDestroy (fun _ => ())
    (fun _ => NativeCall.JobSystemDestroy jobSystem)

def jphBroadPhaseLayerInterfaceTableCreate (N : Joltc)
    (numObjectLayers numBroadPhaseLayers : Nat) : GoM uintptr :=
  callNative FnVar.jphBroadPhaseLayerInterfaceTableCreate
    (fun h => N.BroadPhaseLayerInterfaceTableCreate h numObjectLayers numBroadPhaseLayers)
    (NativeCall.BroadPhaseLayerInterfaceTableCreate numObjectLayers numBroadPhaseLayers)

def jphBroadPhaseLayerInterfaceTableMapObjectToBroadPhaseLayer (bpInterface : uintptr)
    (objectLayer : Nat) (broadPhaseLayer : Nat) : GoM Unit :=
  callNative FnVar.jphBroadPhaseLayerInterfaceTableMapObjectToBroadPhaseLayer (fun _ => ())
    (fun _ => NativeCall.BroadPhaseLayerInterfaceTableMapObjectToBroadPhaseLayer
      bpInterface objectLayer broadPhaseLayer)

def jphObjectLayerPairFilterTableCreate (N : Joltc) (numObjectLayers : Nat) : GoM uintptr :=
  callNative FnVar.jphObjectLayerPairFilterTableCreate
    (fun h => N.ObjectLayerPairFilterTableCreate h numObjectLayers)
    (NativeCall.ObjectLayerPairFilterTableCreate numObjectLayers)

def jphObjectLayerPairFilterTableEnableCollision (filter : uintptr) (layer1 layer2 : Nat) :
    GoM Unit :=
  callNative FnVar.jphObjectLayerPairFilterTableEnableCollision (fun _ => ())
    (fun _ => NativeCall.ObjectLayerPairFilterTableEnableCollision filter layer1 layer2)

def jphObjectLayerPairFilterTableDisableCollision (filter : uintptr) (layer1 layer2 : Nat) :
    GoM Unit :=
  callNative FnVar.jphObjectLayerPairFilterTableDisableCollision (fun _ => ())
    (fun _ => NativeCall.ObjectLayerPairFilterTableDisableCollision filter layer1 layer2)

def jphObjectVsBroadPhaseLayerFilterTableCreate (N : Joltc) (bpInterface : uintptr)
    (numBroadPhaseLayers : Nat) (objectFilter : uintptr) (numObjectLayers : Nat) :
    GoM uintptr :=
  callNative FnVar.jphObjectVsBroadPhaseLayerFilterTableCreate
    (fun h => N.ObjectVsBroadPhaseLayerFilterTableCreate h bpInterface numBroadPhaseLayers
      objectFilter numObjectLayers)
    (NativeCall.ObjectVsBroadPhaseLayerFilterTableCreate bpInterface numBroadPhaseLayers
      objectFilter numObjectLayers)

def jphPhysicsSystemCreate (N : Joltc) (settings : physicsSystemSettings) : GoM uintptr :=
  callNative FnVar.jphPhysicsSystemCreate (fun h => N.PhysicsSystemCreate h settings)
    (NativeCall.PhysicsSystemCreate settings)

def jphPhysicsSystemDestroy (system : uintptr) : GoM Unit :=
  callNative FnVar.jphPhysicsSystemDestroy (fun _ => ())
    (fun _ => NativeCall.PhysicsSystemDestroy system)

def jphPhysicsSystemUpdate (N : Joltc) (system : uintptr) (deltaTime : float32)
    (collisionSteps : Int) (jobSystem : uintptr) : GoM Int :=
  callNative FnVar.jphPhysicsSystemUpdate
    (fun h => N.PhysicsSystemUpdate h system (passFloat32 deltaTime) collisionSteps jobSystem)
    (NativeCall.PhysicsSystemUpdate system (passFloat32 deltaTime) collisionSteps jobSystem)

def jphPhysicsSystemGetBodyInterface (N : Joltc) (system : uintptr) : GoM uintptr :=
  callNative FnVar.jphPhysicsSystemGetBodyInterface
    (fun h => N.PhysicsSystemGetBodyInterface h system)
    (NativeCall.PhysicsSystemGetBodyInterface system)

def jphBoxShapeCreate (N : Joltc) (halfExtent : Vec3) (convexRadius : float32) :
    GoM uintptr :=
  callNative FnVar.jphBoxShapeCreate
    (fun h => N.BoxShapeCreate h halfExtent (passFloat32 convexRadius))
    (NativeCall.BoxShapeCreate halfExtent (passFloat32 convexRadius))

def jphSphereShapeCreate (N : Joltc) (radius : float32) : GoM uintptr :=
  callNative FnVar.jphSphereShapeCreate (fun h => N.SphereShapeCreate h (passFloat32 radius))
    (NativeCall.SphereShapeCreate (passFloat32 radius))

def jphCapsuleShapeCreate (N : Joltc) (halfHeight radius : float32) : GoM uintptr :=
  callNative FnVar.jphCapsuleShapeCreate
    (fun h => N.CapsuleShapeCreate h (passFloat32 halfHeight) (passFloat32 radius))
    (NativeCall.CapsuleShapeCreate (passFloat32 halfHeight) (passFloat32 radius))

def jphShapeDestroy (shape : uintptr) : GoM Unit :=
  callNative FnVar.jphShapeDestroy (fun _ => ()) (fun _ => NativeCall.ShapeDestroy shape)

def jphBodyCreationSettingsCreate3 (N : Joltc) (shape : uintptr) (position : Vec3)
    (rotation : Quat) (motionType : Int) (objectLayer : Nat) : GoM uintptr :=
  callNative FnVar.jphBodyCreationSettingsCreate3
    (fun h => N.BodyCreationSettingsCreate3 h shape position rotation motionType objectLayer)
    (NativeCall.BodyCreationSettingsCreate3 shape position rotation motionType objectLayer)

def jphBodyCreationSettingsDestroy (settings : uintptr) : GoM Unit :=
  callNative FnVar.jphBodyCreationSettingsDestroy (fun _ => ())
    (fun _ => NativeCall.BodyCreationSettingsDestroy settings)

def jphBodyInterfaceCreateAndAddBody (N : Joltc) (bi settings : uintptr) (activation : Int) :
    GoM Nat :=
  callNative FnVar.jphBodyInterfaceCreateAndAddBody
    (fun h => N.BodyInterfaceCreateAndAddBody h bi settings activation)
    (NativeCall.BodyInterfaceCreateAndAddBody bi settings activation)

def jphBodyInterfaceRemoveAndDestroyBody (bi : uintptr) (bodyID : Nat) : GoM Unit :=
  callNative FnVar.jphBodyInterfaceRemoveAndDestroyBody (fun _ => ())
    (fun _ => NativeCall.BodyInterfaceRemoveAndDestroyBody bi bodyID)

def jphBodyInterfaceRemoveBody (bi : uintptr) (bodyID : Nat) : GoM Unit :=
  callNative FnVar.jphBodyInterfaceRemoveBody (fun _ => ())
    (fun _ => NativeCall.BodyInterfaceRemoveBody bi bodyID)

def jphBodyInterfaceDestroyBody (bi : uintptr) (bodyID : Nat) : GoM Unit :=
  callNative FnVar.jphBodyInterfaceDestroyBody (fun _ => ())
    (fun _ => NativeCall.BodyInterfaceDestroyBody bi bodyID)

def jphBodyInterfaceSetLinearVelocity (bi : uintptr) (bodyID : Nat) (velocity : Vec3) :
    GoM Unit :=
  callNative FnVar.jphBodyInterfaceSetLinearVelocity (fun _ => ())
    (fun _ => NativeCall.BodyInterfaceSetLinearVelocity bi bodyID velocity)

/-- The C function writes the velocity through its pointer argument; the value written is
the result here. -/
def jphBodyInterfaceGetLinearVelocity (N : Joltc) (bi : uintptr) (bodyID : Nat) : GoM Vec3 :=
  callNative FnVar.jphBodyInterfaceGetLinearVelocity
    (fun h => N.BodyInterfaceGetLinearVelocity h bi bodyID)
    (NativeCall.BodyInterfaceGetLinearVelocity bi bodyID)

def jphBodyInterfaceSetPosition (bi : uintptr) (bodyID : Nat) (position : Vec3)
    (activation : Int) : GoM Unit :=
  callNative FnVar.jphBodyInterfaceSetPosition (fun _ => ())
    (fun _ => NativeCall.BodyInterfaceSetPosition bi bodyID position activation)

def jphBodyInterfaceSetRotation (bi : uintptr) (bodyID : Nat) (rotation : Quat)
    (activation : Int) : GoM Unit :=
  callNative FnVar.jphBodyInterfaceSetRotation (fun _ => ())
    (fun _ => NativeCall.BodyInterfaceSetRotation bi bodyID rotation activation)

def jphBodyInterfaceSetFriction (bi : uintptr) (bodyID : Nat) (friction : float32) :
    GoM Unit :=
  callNative FnVar.jphBodyInterfaceSetFriction (fun _ => ())
    (fun _ => NativeCall.BodyInterfaceSetFriction bi bodyID (passFloat32 friction))

def jphBodyInterfaceSetRestitution (bi : uintptr) (bodyID : Nat) (restitution : float32) :
    GoM Unit :=
  callNative FnVar.jphBodyInterfaceSetRestitution (fun _ => ())
    (fun _ => NativeCall.BodyInterfaceSetRestitution bi bodyID (passFloat32 restitution))

def jphBodyInterfaceSetGravityFactor (bi : uintptr) (bodyID : Nat) (value : float32) :
    GoM Unit :=
  callNative FnVar.jphBodyInterfaceSetGravityFactor (fun _ => ())
    (fun _ => NativeCall.BodyInterfaceSetGravityFactor bi bodyID (passFloat32 value))

def jphBodyInterfaceSetMotionType (bi : uintptr) (bodyID : Nat) (motionType : Int)
    (activation : Int) : GoM Unit :=
  callNative FnVar.jphBodyInterfaceSetMotionType (fun _ => ())
    (fun _ => NativeCall.BodyInterfaceSetMotionType bi bodyID motionType activation)

/-! ## library.go -/

/-- The value `*windows.LazyDLL` points to (golang.org/x/sys/windows). -/
structure LazyDLL where
  Name : String
deriving DecidableEq, Repr

/-- What library.go takes from outside the repository: `runtime.GOOS`, the two functions of
golang.org/x/sys/windows it calls, the symbol lookup behind `purego.RegisterLibFunc`, and
the answers of the loaded library.  `NewLazyDLL` returns a pointer, `none` being nil. -/
structure Platform where
  GOOS : String
  NewLazyDLL : String → Option LazyDLL
  Handle : LazyDLL → Outcome uintptr
  hasSymbol : uintptr → String → Bool
  native : Joltc

/-- The pairs (function variable, C symbol name) of the `purego.RegisterLibFunc` lines of
`registerSymbols`, in source order. -/
def registrations : List (FnVar × String) := [
  (FnVar.jphInit, "JPH_Init"),
  (FnVar.jphShutdown, "JPH_Shutdown"),
  (FnVar.jphJobSystemThreadPoolCreate, "JPH_JobSystemThreadPool_Create"),
  (FnVar.jphJobSystemDestroy, "JPH_JobSystem_Destroy"),
  (FnVar.jphBroadPhaseLayerInterfaceTableCreate, "JPH_BroadPhaseLayerInterfaceTable_Create"),
  (FnVar.jphBroadPhaseLayerInterfaceTableMapObjectToBroadPhaseLayer, "JPH_BroadPhaseLayerInterfaceTable_MapObjectToBroadPhaseLayer"),
  (FnVar.jphObjectLayerPairFilterTableCreate, "JPH_ObjectLayerPairFilterTable_Create"),
  (FnVar.jphObjectLayerPairFilterTableEnableCollision, "JPH_ObjectLayerPairFilterTable_EnableCollision"),
  (FnVar.jphObjectLayerPairFilterTableDisableCollision, "JPH_ObjectLayerPairFilterTable_DisableCollision"),
  (FnVar.jphObjectVsBroadPhaseLayerFilterTableCreate, "JPH_ObjectVsBroadPhaseLayerFilterTable_Create"),
  (FnVar.jphPhysicsSystemCreate, "JPH_PhysicsSystem_Create"),
  (FnVar.jphPhysicsSystemDestroy, "JPH_PhysicsSystem_Destroy"),
  (FnVar.jphPhysicsSystemOptimizeBroadPhase, "JPH_PhysicsSystem_OptimizeBroadPhase"),
  (FnVar.jphPhysicsSystemUpdate, "JPH_PhysicsSystem_Update"),
  (FnVar.jphPhysicsSystemGetBodyInterface, "JPH_PhysicsSystem_GetBodyInterface"),
  (FnVar.jphPhysicsSystemSetGravity, "JPH_PhysicsSystem_SetGravity"),
  (FnVar.jphPhysicsSystemGetGravity, "JPH_PhysicsSystem_GetGravity"),
  (FnVar.jphPhysicsSystemGetNumBodies, "JPH_PhysicsSystem_GetNumBodies"),
  (FnVar.jphPhysicsSystemGetNumActiveBodies, "JPH_PhysicsSystem_GetNumActiveBodies"),
  (FnVar.jphPhysicsSystemGetMaxBodies, "JPH_PhysicsSystem_GetMaxBodies"),
  (FnVar.jphBoxShapeCreate, "JPH_BoxShape_Create"),
  (FnVar.jphBoxShapeGetHalfExtent, "JPH_BoxShape_GetHalfExtent"),
  (FnVar.jphSphereShapeCreate, "JPH_SphereShape_Create"),
  (FnVar.jphSphereShapeGetRadius, "JPH_SphereShape_GetRadius"),
  (FnVar.jphCapsuleShapeCreate, "JPH_CapsuleShape_Create"),
  (FnVar.jphShapeDestroy, "JPH_Shape_Destroy"),
  (FnVar.jphBodyCreationSettingsCreate3, "JPH_BodyCreationSettings_Create3"),
  (FnVar.jphBodyCreationSettingsDestroy, "JPH_BodyCreationSettings_Destroy"),
  (FnVar.jphBodyCreationSettingsSetLinearVelocity, "JPH_BodyCreationSettings_SetLinearVelocity"),
  (FnVar.jphBodyCreationSettingsGetLinearVelocity, "JPH_BodyCreationSettings_GetLinearVelocity"),
  (FnVar.jphBodyCreationSettingsSetFriction, "JPH_BodyCreationSettings_SetFriction"),
  (FnVar.jphBodyCreationSettingsGetFriction, "JPH_BodyCreationSettings_GetFriction"),
  (FnVar.jphBodyCreationSettingsSetRestitution, "JPH_BodyCreationSettings_SetRestitution"),
  (FnVar.jphBodyCreationSettingsGetRestitution, "JPH_BodyCreationSettings_GetRestitution"),
  (FnVar.jphBodyCreationSettingsSetGravityFactor, "JPH_BodyCreationSettings_SetGravityFactor"),
  (FnVar.jphBodyCreationSettingsGetGravityFactor, "JPH_BodyCreationSettings_GetGravityFactor"),
  (FnVar.jphBodyCreationSettingsSetAllowSleeping, "JPH_BodyCreationSettings_SetAllowSleeping"),
  (FnVar.jphBodyCreationSettingsGetAllowSleeping, "JPH_BodyCreationSettings_GetAllowSleeping"),
  (FnVar.jphBodyCreationSettingsSetMotionQuality, "JPH_BodyCreationSettings_SetMotionQuality"),
  (FnVar.jphBodyCreationSettingsGetMotionQuality, "JPH_BodyCreationSettings_GetMotionQuality"),
  (FnVar.jphBodyInterfaceCreateAndAddBody, "JPH_BodyInterface_CreateAndAddBody"),
  (FnVar.jphBodyInterfaceRemoveAndDestroyBody, "JPH_BodyInterface_RemoveAndDestroyBody"),
  (FnVar.jphBodyInterfaceRemoveBody, "JPH_BodyInterface_RemoveBody"),
  (FnVar.jphBodyInterfaceDestroyBody, "JPH_BodyInterface_DestroyBody"),
  (FnVar.jphBodyInterfaceIsAdded, "JPH_BodyInterface_IsAdded"),
  (FnVar.jphBodyInterfaceSetLinearVelocity, "JPH_BodyInterface_SetLinearVelocity"),
  (FnVar.jphBodyInterfaceGetLinearVelocity, "JPH_BodyInterface_GetLinearVelocity"),
  (FnVar.jphBodyInterfaceGetCenterOfMassPosition, "JPH_BodyInterface_GetCenterOfMassPosition"),
  (FnVar.jphBodyInterfaceSetPosition, "JPH_BodyInterface_SetPosition"),
  (FnVar.jphBodyInterfaceGetPosition, "JPH_BodyInterface_GetPosition"),
  (FnVar.jphBodyInterfaceSetRotation, "JPH_BodyInterface_SetRotation"),
  (FnVar.jphBodyInterfaceGetRotation, "JPH_BodyInterface_GetRotation"),
  (FnVar.jphBodyInterfaceActivateBody, "JPH_BodyInterface_ActivateBody"),
  (FnVar.jphBodyInterfaceDeactivateBody, "JPH_BodyInterface_DeactivateBody"),
  (FnVar.jphBodyInterfaceIsActive, "JPH_BodyInterface_IsActive"),
  (FnVar.jphBodyInterfaceAddForce, "JPH_BodyInterface_AddForce"),
  (FnVar.jphBodyInterfaceAddImpulse, "JPH_BodyInterface_AddImpulse"),
  (FnVar.jphBodyInterfaceSetFriction, "JPH_BodyInterface_SetFriction"),
  (FnVar.jphBodyInterfaceGetFriction, "JPH_BodyInterface_GetFriction"),
  (FnVar.jphBodyInterfaceSetRestitution, "JPH_BodyInterface_SetRestitution"),
  (FnVar.jphBodyInterfaceGetRestitution, "JPH_BodyInterface_GetRestitution"),
  (FnVar.jphBodyInterfaceSetGravityFactor, "JPH_BodyInterface_SetGravityFactor"),
  (FnVar.jphBodyInterfaceGetGravityFactor, "JPH_BodyInterface_GetGravityFactor"),
  (FnVar.jphBodyInterfaceGetMotionType, "JPH_BodyInterface_GetMotionType"),
  (FnVar.jphBodyInterfaceSetMotionType, "JPH_BodyInterface_SetMotionType")
]

/-- Function getLibraryName of library.go, with `runtime.GOOS` as argument. -/
def getLibraryName (GOOS : String) : GoM String :=
  if GOOS = "windows" then pure "joltc.dll"
  else if GOOS = "darwin" then pure "libjoltc.dylib"
  else if GOOS = "linux" then pure "libjoltc.so"
  else goPanic (GoPanic.value ("jolt: unsupported GOOS=" ++ GOOS))

/-- The method `(*LazyDLL).Handle` of the dependency, as a Go computation. -/
def LazyDLL.Handle (P : Platform) (d : LazyDLL) : GoM uintptr := fun w => (P.Handle d, w)

/-- The call `purego.RegisterLibFunc(&fptr, handle, name)`: it looks the symbol up, panics
when the lookup fails and otherwise binds the function variable. -/
def RegisterLibFunc (P : Platform) (fptr : FnVar) (handle : uintptr) (name : String) :
    GoM Unit := fun w =>
  if P.hasSymbol handle name then
    (Outcome.returned (), { w with bound := fptr :: w.bound })
  else
    (Outcome.panicked (GoPanic.dependency "purego.RegisterLibFunc"), w)

/-- The `purego.RegisterLibFunc` statements of a list of registrations, in order. -/
def registerEach (P : Platform) (handle : uintptr) : List (FnVar × String) → GoM Unit
  | [] => pure ()
  | (fptr, name) :: rest => do
      RegisterLibFunc P fptr handle name
      registerEach P handle rest

/-- Function registerSymbols of library.go. -/
def registerSymbols (P : Platform) (handle : uintptr) : GoM Unit :=
  registerEach P handle registrations

/-- Assignment to the package variable `lib`. -/
def setLib (h : uintptr) : GoM Unit := fun w => (Outcome.returned (), { w with lib := h })

/-- Function loadLibrary of library.go. -/
def loadLibrary (P : Platform) : GoM error := do
  let name ← getLibraryName P.GOOS
  match P.NewLazyDLL name with
  | none => do
      let name ← getLibraryName P.GOOS
      pure (some ("jolt: failed to load joltc library (" ++ name ++ ")"))
  | some joltDll => do
      let h ← LazyDLL.Handle P joltDll
      setLib h
      let h ← LazyDLL.Handle P joltDll
      registerSymbols P h
      pure none

/-! ## jolt.go -/

/-- Read the package variable `initialized`. -/
def getInitialized : GoM Bool := fun w => (Outcome.returned w.initialized, w)

/-- Assignment to the package variable `initialized`. -/
def setInitialized (b : Bool) : GoM Unit := fun w =>
  (Outcome.returned (), { w with initialized := b })

/-- Function Init of jolt.go. -/
def Init (P : Platform) : GoM error := do
  if (← getInitialized) then
    pure none
  else
    match (← loadLibrary P) with
    | some err => pure (some err)
    | none =>
      if !(← jphInit P.native) then
        pure (some "jolt: JPH_Init failed")
      else do
        setInitialized true
        pure none

/-- Function Shutdown of jolt.go. -/
def Shutdown : GoM Unit := do
  if !(← getInitialized) then
    pure ()
  else do
    jphShutdown
    setInitialized false

/-- JobSystem of jolt.go. -/
structure JobSystem where
  handle : uintptr
deriving DecidableEq, Repr

/-- Function NewJobSystem of jolt.go. -/
def NewJobSystem (N : Joltc) (maxJobs maxBarriers : Nat) (numThreads : Int) :
    GoM JobSystem := do
  let maxJobs := if maxJobs = 0 then 2048 else maxJobs
  let maxBarriers := if maxBarriers = 0 then 8 else maxBarriers
  let cfg : jobSystemThreadPoolConfig :=
    { MaxJobs := maxJobs, MaxBarrier := maxBarriers, NumThreads := numThreads }
  let h ← jphJobSystemThreadPoolCreate N cfg
  pure { handle := h }

/-- Method JobSystem.Close of jolt.go; the result is the receiver after the call. -/
def JobSystem.Close (js : JobSystem) : GoM JobSystem := do
  if js.handle ≠ 0 then
    jphJobSystemDestroy js.handle
    pure { js with handle := 0 }
  else
    pure js

/-- BroadPhaseLayerInterface of jolt.go. -/
structure BroadPhaseLayerInterface where
  handle : uintptr
deriving DecidableEq, Repr

/-- Function NewBroadPhaseLayerInterfaceTable of jolt.go. -/
def NewBroadPhaseLayerInterfaceTable (N : Joltc) (numObjectLayers numBroadPhaseLayers : Nat) :
    GoM BroadPhaseLayerInterface := do
  let h ← jphBroadPhaseLayerInterfaceTableCreate N numObjectLayers numBroadPhaseLayers
  pure { handle := h }

/-- Method BroadPhaseLayerInterface.MapObjectToBroadPhaseLayer of jolt.go. -/
def BroadPhaseLayerInterface.MapObjectToBroadPhaseLayer (b : BroadPhaseLayerInterface)
    (objectLayer : ObjectLayer) (broadPhaseLayer : BroadPhaseLayer) : GoM Unit :=
  jphBroadPhaseLayerInterfaceTableMapObjectToBroadPhaseLayer b.handle objectLayer
    broadPhaseLayer

/-- ObjectLayerPairFilter of jolt.go. -/
structure ObjectLayerPairFilter where
  handle : uintptr
deriving DecidableEq, Repr

/-- Function NewObjectLayerPairFilterTable of jolt.go. -/
def NewObjectLayerPairFilterTable (N : Joltc) (numObjectLayers : Nat) :
    GoM ObjectLayerPairFilter := do
  let h ← jphObjectLayerPairFilterTableCreate N numObjectLayers
  pure { handle := h }

/-- Method ObjectLayerPairFilter.EnableCollision of jolt.go. -/
def ObjectLayerPairFilter.EnableCollision (f : ObjectLayerPairFilter)
    (layer1 layer2 : ObjectLayer) : GoM Unit :=
  jphObjectLayerPairFilterTableEnableCollision f.handle layer1 layer2

/-- Method ObjectLayerPairFilter.DisableCollision of jolt.go. -/
def ObjectLayerPairFilter.DisableCollision (f : ObjectLayerPairFilter)
    (layer1 layer2 : ObjectLayer) : GoM Unit :=
  jphObjectLayerPairFilterTableDisableCollision f.handle layer1 layer2

/-- ObjectVsBroadPhaseLayerFilter of jolt.go. -/
structure ObjectVsBroadPhaseLayerFilter where
  handle : uintptr
deriving DecidableEq, Repr

/-- Function NewObjectVsBroadPhaseLayerFilterTable of jolt.go. -/
def NewObjectVsBroadPhaseLayerFilterTable (N : Joltc) (bpInterface : BroadPhaseLayerInterface)
    (numBroadPhaseLayers : Nat) (objectFilter : ObjectLayerPairFilter)
    (numObjectLayers : Nat) : GoM ObjectVsBroadPhaseLayerFilter := do
  let h ← jphObjectVsBroadPhaseLayerFilterTableCreate N bpInterface.handle
    numBroadPhaseLayers objectFilter.handle numObjectLayers
  pure { handle := h }

/-! ## physics_system.go -/

/-- PhysicsSystem of physics_system.go; the three references are pointers. -/
structure PhysicsSystem where
  handle : uintptr
  bpLayerInterface : Option BroadPhaseLayerInterface
  objLayerFilter : Option ObjectLayerPairFilter
  objVsBPFilter : Option ObjectVsBroadPhaseLayerFilter
deriving DecidableEq, Repr

/-- PhysicsSystemConfig of physics_system.go; the three references are pointers, `none`
being nil. -/
structure PhysicsSystemConfig where
  MaxBodies : Nat
  NumBodyMutexes : Nat
  MaxBodyPairs : Nat
  MaxContactConstraints : Nat
  BroadPhaseLayer : Option BroadPhaseLayerInterface
  ObjectLayerPairFilter : Option ObjectLayerPairFilter
  ObjectVsBPLayerFilter : Option ObjectVsBroadPhaseLayerFilter
deriving DecidableEq, Repr

/-- Reading a field through a pointer: a nil pointer panics. -/
def deref {α : Type} : Option α → GoM α
  | some a => pure a
  | none => goPanic GoPanic.nilPointerDereference

/-- Function NewPhysicsSystem of physics_system.go.  The defaults are written into the
config the caller passed, so the config after the call is returned with the system. -/
def NewPhysicsSystem (N : Joltc) (cfg : PhysicsSystemConfig) :
    GoM (PhysicsSystem × PhysicsSystemConfig) := do
  let cfg := if cfg.MaxBodies = 0 then { cfg with MaxBodies := 10240 } else cfg
  let cfg := if cfg.MaxBodyPairs = 0 then { cfg with MaxBodyPairs := 65536 } else cfg
  let cfg :=
    if cfg.MaxContactConstraints = 0 then { cfg with MaxContactConstraints := 10240 } else cfg
  let bp ← deref cfg.BroadPhaseLayer
  let olpf ← deref cfg.ObjectLayerPairFilter
  let ovb ← deref cfg.ObjectVsBPLayerFilter
  let settings : physicsSystemSettings :=
    { MaxBodies := cfg.MaxBodies
      NumBodyMutexes := cfg.NumBodyMutexes
      MaxBodyPairs := cfg.MaxBodyPairs
      MaxContactConstraints := cfg.MaxContactConstraints
      BroadPhaseLayerInterface := bp.handle
      ObjectLayerPairFilter := olpf.handle
      ObjectVsBroadPhaseLayerFilter := ovb.handle }
  let h ← jphPhysicsSystemCreate N settings
  pure ({ handle := h
          bpLayerInterface := cfg.BroadPhaseLayer
          objLayerFilter := cfg.ObjectLayerPairFilter
          objVsBPFilter := cfg.ObjectVsBPLayerFilter }, cfg)

/-- Method PhysicsSystem.Close of physics_system.go; the result is the receiver after the
call. -/
def PhysicsSystem.Close (ps : PhysicsSystem) : GoM PhysicsSystem := do
  if ps.handle ≠ 0 then
    jphPhysicsSystemDestroy ps.handle
    pure { ps with handle := 0 }
  else
    pure ps

/-- Method PhysicsSystem.Update of physics_system.go; `collisionSteps` is a Go `int`. -/
def PhysicsSystem.Update (N : Joltc) (ps : PhysicsSystem) (deltaTime : float32)
    (collisionSteps : Int) (jobSystem : JobSystem) : GoM PhysicsUpdateError := do
  let result ← jphPhysicsSystemUpdate N ps.handle deltaTime (toInt32 collisionSteps)
    jobSystem.handle
  pure result

/-! ## shapes.go and body_creation_settings.go -/

/-- Shape of shapes.go. -/
structure Shape where
  handle : uintptr
deriving DecidableEq, Repr

/-- Method Shape.Destroy of shapes.go; the result is the receiver after the call. -/
def Shape.Destroy (s : Shape) : GoM Shape := do
  if s.handle ≠ 0 then
    jphShapeDestroy s.handle
    pure { s with handle := 0 }
  else
    pure s

/-- Function NewBoxShape of shapes.go. -/
def NewBoxShape (N : Joltc) (halfExtent : Vec3) (convexRadius : float32) : GoM Shape := do
  let h ← jphBoxShapeCreate N halfExtent convexRadius
  pure { handle := h }

/-- Function NewSphereShape of shapes.go. -/
def NewSphereShape (N : Joltc) (radius : float32) : GoM Shape := do
  let h ← jphSphereShapeCreate N radius
  pure { handle := h }

/-- Function NewCapsuleShape of shapes.go. -/
def NewCapsuleShape (N : Joltc) (halfHeight radius : float32) : GoM Shape := do
  let h ← jphCapsuleShapeCreate N halfHeight radius
  pure { handle := h }

/-- BodyCreationSettings of body_creation_settings.go. -/
structure BodyCreationSettings where
  handle : uintptr
deriving DecidableEq, Repr

/-- Function NewBodyCreationSettings of body_creation_settings.go. -/
def NewBodyCreationSettings (N : Joltc) (shape : Shape) (position : Vec3) (rotation : Quat)
    (motionType : MotionType) (objectLayer : ObjectLayer) : GoM BodyCreationSettings := do
  let h ← jphBodyCreationSettingsCreate3 N shape.handle position rotation motionType
    objectLayer
  pure { handle := h }

/-- Method BodyCreationSettings.Close of body_creation_settings.go; the result is the
receiver after the call. -/
def BodyCreationSettings.Close (bcs : BodyCreationSettings) : GoM BodyCreationSettings := do
  if bcs.handle ≠ 0 then
    jphBodyCreationSettingsDestroy bcs.handle
    pure { bcs with handle := 0 }
  else
    pure bcs

/-! ## body_interface.go -/

/-- BodyInterface of body_interface.go. -/
structure BodyInterface where
  handle : uintptr
deriving DecidableEq, Repr

/-- Method PhysicsSystem.GetBodyInterface of physics_system.go. -/
def PhysicsSystem.GetBodyInterface (N : Joltc) (ps : PhysicsSystem) : GoM BodyInterface := do
  let h ← jphPhysicsSystemGetBodyInterface N ps.handle
  pure { handle := h }

/-- Method BodyInterface.CreateAndAddBody. -/
def BodyInterface.CreateAndAddBody (N : Joltc) (bi : BodyInterface)
    (settings : BodyCreationSettings) (activation : Activation) : GoM BodyID := do
  let id ← jphBodyInterfaceCreateAndAddBody N bi.handle settings.handle activation
  pure id

/-- Method BodyInterface.RemoveAndDestroyBody. -/
def BodyInterface.RemoveAndDestroyBody (bi : BodyInterface) (bodyID : BodyID) : GoM Unit :=
  jphBodyInterfaceRemoveAndDestroyBody bi.handle bodyID

/-- Method BodyInterface.RemoveBody. -/
def BodyInterface.RemoveBody (bi : BodyInterface) (bodyID : BodyID) : GoM Unit :=
  jphBodyInterfaceRemoveBody bi.handle bodyID

/-- Method BodyInterface.DestroyBody. -/
def BodyInterface.DestroyBody (bi : BodyInterface) (bodyID : BodyID) : GoM Unit :=
  jphBodyInterfaceDestroyBody bi.handle bodyID

/-- Method BodyInterface.SetLinearVelocity. -/
def BodyInterface.SetLinearVelocity (bi : BodyInterface) (bodyID : BodyID) (velocity : Vec3) :
    GoM Unit :=
  jphBodyInterfaceSetLinearVelocity bi.handle bodyID velocity

/-- Method BodyInterface.GetLinearVelocity. -/
def BodyInterface.GetLinearVelocity (N : Joltc) (bi : BodyInterface) (bodyID : BodyID) :
    GoM Vec3 := do
  let v ← jphBodyInterfaceGetLinearVelocity N bi.handle bodyID
  pure v

/-- Method BodyInterface.SetPosition. -/
def BodyInterface.SetPosition (bi : BodyInterface) (bodyID : BodyID) (position : Vec3)
    (activation : Activation) : GoM Unit :=
  jphBodyInterfaceSetPosition bi.handle bodyID position activation

/-- Method BodyInterface.SetRotation. -/
def BodyInterface.SetRotation (bi : BodyInterface) (bodyID : BodyID) (rotation : Quat)
    (activation : Activation) : GoM Unit :=
  jphBodyInterfaceSetRotation bi.handle bodyID rotation activation

/-- Method BodyInterface.SetFriction. -/
def BodyInterface.SetFriction (bi : BodyInterface) (bodyID : BodyID) (friction : float32) :
    GoM Unit :=
  jphBodyInterfaceSetFriction bi.handle bodyID friction

/-- Method BodyInterface.SetRestitution. -/
def BodyInterface.SetRestitution (bi : BodyInterface) (bodyID : BodyID)
    (restitution : float32) : GoM Unit :=
  jphBodyInterfaceSetRestitution bi.handle bodyID restitution

/-- Method BodyInterface.SetGravityFactor. -/
def BodyInterface.SetGravityFactor (bi : BodyInterface) (bodyID : BodyID) (factor : float32) :
    GoM Unit :=
  jphBodyInterfaceSetGravityFactor bi.handle bodyID factor

/-- Method BodyInterface.SetMotionType. -/
def BodyInterface.SetMotionType (bi : BodyInterface) (bodyID : BodyID)
    (motionType : MotionType) (activation : Activation) : GoM Unit :=
  jphBodyInterfaceSetMotionType bi.handle bodyID motionType activation

/-! ## What the specification calls live bodies and shape references

The wrapper stores no bodies.  The notions below read them off the log of native calls,
following sections 3 and 4.3 of the specification: a body is created by the create call of
the body interface from settings that name a shape, and stays live until it is destroyed. -/

/-- Live creation settings and live bodies, each with the shape handle it was made from. -/
structure StoreView where
  settings : List (uintptr × uintptr)
  bodies : List (Nat × Option uintptr)
deriving DecidableEq, Repr

/-- The effect of one native call on the view. -/
def StoreView.step (v : StoreView) : NativeCall → StoreView
  | NativeCall.BodyCreationSettingsCreate3 shape _ _ _ _ ret =>
      { v with settings := (ret, shape) :: v.settings }
  | NativeCall.BodyCreationSettingsDestroy settings =>
      { v with settings := v.settings.filter (fun s => s.1 ≠ settings) }
  | NativeCall.BodyInterfaceCreateAndAddBody _ settings _ ret =>
      { v with bodies := (ret, v.settings.lookup settings) :: v.bodies }
  | NativeCall.BodyInterfaceRemoveAndDestroyBody _ bodyID =>
      { v with bodies := v.bodies.filter (fun b => b.1 ≠ bodyID) }
  | NativeCall.BodyInterfaceDestroyBody _ bodyID =>
      { v with bodies := v.bodies.filter (fun b => b.1 ≠ bodyID) }
  | _ => v

/-- The view after a log of native calls. -/
def storeView (calls : List NativeCall) : StoreView :=
  calls.foldl StoreView.step ⟨[], []⟩

/-- Whether `bodyID` names a live body after the calls of the log. -/
def isLiveBody (calls : List NativeCall) (bodyID : Nat) : Bool :=
  (storeView calls).bodies.any (fun b => b.1 = bodyID)

/-- Whether some live body was created from the shape with handle `shape`. -/
def shapeInUse (calls : List NativeCall) (shape : uintptr) : Bool :=
  (storeView calls).bodies.any (fun b => b.2 = some shape)

/-! ## A concrete host, for evaluating the wrapper on explicit inputs -/

/-- The dependency golang.org/x/sys/windows as it behaves: `NewLazyDLL` allocates the
LazyDLL value and never returns nil, and `Handle` loads the file on first use and panics
(through `mustLoad`) when loading fails.  `installed` gives the module handle of each file
the loader can find, `exports` the symbols each module exports. -/
def hostPlatform (GOOS : String) (installed : String → Option uintptr)
    (exports : uintptr → String → Bool) (N : Joltc) : Platform :=
  { GOOS := GOOS
    NewLazyDLL := fun name => some { Name := name }
    Handle := fun d =>
      match installed d.Name with
      | some h => Outcome.returned h
      | none => Outcome.panicked (GoPanic.dependency "windows.LazyDLL.mustLoad")
    hasSymbol := exports
    native := N }

/-- A library for examples: JPH_Init succeeds, every create call answers a fresh non-zero
handle, a new body gets the number of native calls made so far as its id, and an update
reports ContactConstraintFull. -/
def demoJoltc : Joltc :=
  { Init := fun _ => true
    JobSystemThreadPoolCreate := fun h _ => h.length + 1
    BroadPhaseLayerInterfaceTableCreate := fun h _ _ => h.length + 1
    ObjectLayerPairFilterTableCreate := fun h _ => h.length + 1
    ObjectVsBroadPhaseLayerFilterTableCreate := fun h _ _ _ _ => h.length + 1
    PhysicsSystemCreate := fun h _ => h.length + 1
    PhysicsSystemUpdate := fun _ _ _ _ _ => 4
    PhysicsSystemGetBodyInterface := fun h _ => h.length + 1
    BoxShapeCreate := fun h _ _ => h.length + 1
    SphereShapeCreate := fun h _ => h.length + 1
    CapsuleShapeCreate := fun h _ _ => h.length + 1
    BodyCreationSettingsCreate3 := fun h _ _ _ _ _ => h.length + 1
    BodyInterfaceCreateAndAddBody := fun h _ _ _ => h.length
    BodyInterfaceGetLinearVelocity := fun _ _ _ => ⟨⟨0⟩, ⟨0⟩, ⟨0⟩⟩ }

/-- A Windows host on which joltc.dll is found (module handle 4096) and exports every
symbol that registerSymbols asks for. -/
def demoHost : Platform :=
  hostPlatform "windows" (fun name => if name = "joltc.dll" then some 4096 else none)
    (fun h s => h = 4096 && (registrations.map Prod.snd).contains s) demoJoltc

/-- A Windows host on which no joltc.dll can be found. -/
def bareHost : Platform :=
  hostPlatform "windows" (fun _ => none) (fun _ _ => false) demoJoltc

/-- The world after a successful `Init` on the demo host. -/
def demoWorld : World := ((Init demoHost).run World.fresh).2

/-- Function QuatIdentity of types.go; 1 as a float32 is the bit pattern 0x3F800000. -/
def QuatIdentity : Quat := { X := ⟨0⟩, Y := ⟨0⟩, Z := ⟨0⟩, W := ⟨0x3F800000⟩ }

/-- What the example driver holds once its falling sphere is in the world. -/
structure Scene where
  jobSystem : JobSystem
  physicsSystem : PhysicsSystem
  bodyInterface : BodyInterface
  sphereShape : Shape
  sphereID : BodyID
deriving DecidableEq, Repr

/-- Steps 1 to 6 of examples/basic/main.go for the sphere (radius 0.5, at height 10,
dynamic, on the moving layer), on the demo host. -/
def demoScene : GoM Scene := do
  let _ ← Init demoHost
  let jobSystem ← NewJobSystem demoJoltc 0 0 (-1)
  let bpLayerInterface ← NewBroadPhaseLayerInterfaceTable demoJoltc 2 2
  bpLayerInterface.MapObjectToBroadPhaseLayer 0 0
  bpLayerInterface.MapObjectToBroadPhaseLayer 1 1
  let objectFilter ← NewObjectLayerPairFilterTable demoJoltc 2
  objectFilter.EnableCollision 0 1
  objectFilter.EnableCollision 1 1
  let bpFilter ← NewObjectVsBroadPhaseLayerFilterTable demoJoltc bpLayerInterface 2
    objectFilter 2
  let (physicsSystem, _) ← NewPhysicsSystem demoJoltc
    { MaxBodies := 1024, NumBodyMutexes := 0, MaxBodyPairs := 1024,
      MaxContactConstraints := 1024, BroadPhaseLayer := some bpLayerInterface,
      ObjectLayerPairFilter := some objectFilter, ObjectVsBPLayerFilter := some bpFilter }
  let bodyInterface ← physicsSystem.GetBodyInterface demoJoltc
  let sphereShape ← NewSphereShape demoJoltc ⟨0x3F000000⟩
  let sphereSettings ← NewBodyCreationSettings demoJoltc sphereShape
    ⟨⟨0⟩, ⟨0x41200000⟩, ⟨0⟩⟩ QuatIdentity MotionTypeDynamic 1
  let sphereID ← bodyInterface.CreateAndAddBody demoJoltc sphereSettings Activate
  let _ ← sphereSettings.Close
  pure { jobSystem := jobSystem, physicsSystem := physicsSystem,
         bodyInterface := bodyInterface, sphereShape := sphereShape, sphereID := sphereID }

/-- The world the example driver has reached at that point. -/
def sceneWorld : World := (demoScene.run World.fresh).2

/-- The demo library with a JPH_Init that reports failure. -/
def failingInitJoltc : Joltc := { demoJoltc with Init := fun _ => false }

/-- The demo host with that library installed. -/
def failingInitHost : Platform := { demoHost with native := failingInitJoltc }

/-- The world once loadLibrary has returned nil on the demo host, from a fresh process. -/
def loadedWorld : World := ⟨false, 4096, (registrations.map Prod.fst).reverse, []⟩

/-! ## The remaining constants of types.go -/

/-- MotionQuality of types.go (`int32`). -/
abbrev MotionQuality := Int

def MotionQualityDiscrete : MotionQuality := 0
def MotionQualityLinearCast : MotionQuality := 1

/-- AllowedDOFs of types.go (`int32`); `|` on it is the two's complement `Int.lor`. -/
abbrev AllowedDOFs := Int

def AllowedDOFsAll : AllowedDOFs := 0b111111
def AllowedDOFsTranslationX : AllowedDOFs := 0b000001
def AllowedDOFsTranslationY : AllowedDOFs := 0b000010
def AllowedDOFsTranslationZ : AllowedDOFs := 0b000100
def AllowedDOFsRotationX : AllowedDOFs := 0b001000
def AllowedDOFsRotationY : AllowedDOFs := 0b010000
def AllowedDOFsRotationZ : AllowedDOFs := 0b100000
def AllowedDOFsPlane2D : AllowedDOFs :=
  Int.lor (Int.lor AllowedDOFsTranslationX AllowedDOFsTranslationY) AllowedDOFsRotationZ

/-- The number a float32 bit pattern denotes (IEEE-754 binary32: one sign bit, eight
exponent bits, 23 fraction bits); `none` for the infinities and NaN. -/
def float32.toRat (f : float32) : Option Rat :=
  let sign : Rat := if f.bits / 2 ^ 31 % 2 = 1 then -1 else 1
  let e : Nat := f.bits / 2 ^ 23 % 256
  let m : Nat := f.bits % 2 ^ 23
  if e = 255 then none
  else if e = 0 then some (sign * (m : Rat) / 2 ^ 149)
  else if 150 ≤ e then some (sign * ((2 ^ 23 + m : Nat) : Rat) * 2 ^ (e - 150))
  else some (sign * ((2 ^ 23 + m : Nat) : Rat) / 2 ^ (150 - e))

/-! ## Sequences of Init and Shutdown -/

/-- One call of the life cycle of the engine. -/
inductive LifecycleOp
  | init
  | shutdown
deriving DecidableEq, Repr

/-- The world after one life-cycle call.  A call that panics leaves the world it had
reached (the caller may recover and go on). -/
def LifecycleOp.run (P : Platform) : LifecycleOp → World → World
  | LifecycleOp.init, w => ((Init P).run w).2
  | LifecycleOp.shutdown, w => (Shutdown.run w).2

/-- The world after a sequence of life-cycle calls. -/
def runLifecycle (P : Platform) (ops : List LifecycleOp) (w : World) : World :=
  ops.foldl (fun w op => op.run P w) w

/-- Reading a log of native calls as the life cycle of the native engine.  The state is
`some b` while every JPH_Init so far came when the engine was not initialised and every
JPH_Shutdown when it was, `b` telling whether the engine is initialised now (a JPH_Init that
answers false leaves it uninitialised); it is `none` once one call came out of turn. -/
def lifecycleStep : Option Bool → NativeCall → Option Bool
  | none, _ => none
  | some s, NativeCall.Init ret => if s then none else some ret
  | some s, NativeCall.Shutdown => if s then some false else none
  | some s, _ => some s

/-- The life-cycle state after a log that starts with the engine uninitialised. -/
def lifecycleState (calls : List NativeCall) : Option Bool :=
  calls.foldl lifecycleStep (some false)

/-! ## The engine behind the boundary, as the specification describes it

The joltc library is not part of the repository.  Where a claim speaks about what the
engine stores (the velocity of a body, whether a body is added, which layer pairs collide),
the engine is modelled from sections 3, 4.2 and 4.3 of the specification, as a state read
off the log of native calls. -/

/-- Modelled from the spec: a record of the body store of the native engine (joltc, absent
from the repository), reduced to the fields the claims use: the body interface it was
created through, its id, its linear velocity and whether it is added to the simulation. -/
structure SpecBody where
  bi : uintptr
  id : Nat
  velocity : Vec3
  added : Bool
deriving DecidableEq, Repr

/-- Whether the record is the body `bodyID` of the body interface `bi`. -/
def SpecBody.names (b : SpecBody) (bi : uintptr) (bodyID : Nat) : Bool :=
  b.bi = bi && b.id = bodyID

/-- The record once the body is removed from the simulation. -/
def SpecBody.remove (b : SpecBody) : SpecBody := { b with added := false }

/-- The record with a new linear velocity. -/
def SpecBody.setVelocity (b : SpecBody) (velocity : Vec3) : SpecBody :=
  { b with velocity := velocity }

/-- Modelled from the spec: the state of the native engine (joltc, absent from the
repository): the body store and, for each pair-filter table, the layer pairs that are
enabled (default: no collision). -/
structure SpecEngine where
  bodies : List SpecBody
  pairs : List (uintptr × Nat × Nat)
deriving DecidableEq, Repr

/-- Modelled from the spec: what one native call does to the engine (joltc, absent from
the repository).  Section 4.3: the create call inserts a new body (velocity zero by
default); RemoveAndDestroy frees the record; Remove makes the body invisible to the stepper
without freeing it, and removing again changes nothing; Destroy frees a body that is not
added and fails on one that still is; SetLinearVelocity on a known id stores the velocity and
on an unknown id changes nothing.  Section 4.2: Enable and Disable are symmetric, the entry
(a, b) is set together with (b, a).  The stepper is not modelled: an update leaves this state
as it is, so the state says nothing about velocities after an update. -/
def SpecEngine.step (e : SpecEngine) : NativeCall → SpecEngine
  | NativeCall.BodyInterfaceCreateAndAddBody bi _ _ ret =>
      { e with bodies := ⟨bi, ret, ⟨⟨0⟩, ⟨0⟩, ⟨0⟩⟩, true⟩ :: e.bodies }
  | NativeCall.BodyInterfaceRemoveAndDestroyBody bi bodyID =>
      { e with bodies := e.bodies.filter (fun b => !(b.names bi bodyID)) }
  | NativeCall.BodyInterfaceRemoveBody bi bodyID =>
      { e with bodies := e.bodies.map (fun b => if b.names bi bodyID then b.remove else b) }
  | NativeCall.BodyInterfaceDestroyBody bi bodyID =>
      { e with bodies := e.bodies.filter (fun b => !(b.names bi bodyID && !b.added)) }
  | NativeCall.BodyInterfaceSetLinearVelocity bi bodyID velocity =>
      { e with bodies :=
          e.bodies.map (fun b => if b.names bi bodyID then b.setVelocity velocity else b) }
  | NativeCall.ObjectLayerPairFilterTableEnableCollision filter layer1 layer2 =>
      { e with pairs := (filter, layer1, layer2) :: (filter, layer2, layer1) :: e.pairs }
  | NativeCall.ObjectLayerPairFilterTableDisableCollision filter layer1 layer2 =>
      { e with pairs :=
          e.pairs.filter (fun p => p ≠ (filter, layer1, layer2) ∧ p ≠ (filter, layer2, layer1)) }
  | _ => e

/-- Modelled from the spec: the state of the native engine (joltc, absent from the
repository) after a log of native calls, starting empty. -/
def specEngine (calls : List NativeCall) : SpecEngine :=
  calls.foldl SpecEngine.step ⟨[], []⟩

/-- Modelled from the spec: whether the body store of the native engine (joltc, absent
from the repository) holds a body with this id for this body interface. -/
def specHasBody (calls : List NativeCall) (bi : uintptr) (bodyID : Nat) : Bool :=
  (specEngine calls).bodies.any (fun b => b.names bi bodyID)

/-- Modelled from the spec: what JPH_BodyInterface_GetLinearVelocity of the native engine
(joltc, absent from the repository) writes through its pointer: the stored velocity of the
body, and nothing for an unknown id, so that the zero value of the Go variable stays. -/
def specGetLinearVelocity (calls : List NativeCall) (bi : uintptr) (bodyID : Nat) : Vec3 :=
  match (specEngine calls).bodies.find? (fun b => b.names bi bodyID) with
  | some b => b.velocity
  | none => ⟨⟨0⟩, ⟨0⟩, ⟨0⟩⟩

/-- Modelled from the spec: the query of the pair-filter table of the native engine (joltc,
absent from the repository): whether the table allows the two object layers to collide. -/
def specShouldCollide (calls : List NativeCall) (filter : uintptr) (layer1 layer2 : Nat) :
    Bool :=
  (specEngine calls).pairs.contains (filter, layer1, layer2)

/-- The demo library with a velocity getter that follows the specification. -/
def specJoltc : Joltc := { demoJoltc with BodyInterfaceGetLinearVelocity := specGetLinearVelocity }

/-! ## Calling a release method again and again -/

/-- The program that calls a method `n` times in a row on one wrapper, each call on the
wrapper as the call before left it; a panic ends the program. -/
def repeatGo {α : Type} (method : α → GoM α) : Nat → α → GoM α
  | 0, x => pure x
  | n + 1, x => do
      let x ← method x
      repeatGo method n x

end Jolt

/-! # Theorems -/

namespace Jolt

/-! ## Reasoning about Go computations -/

@[simp] theorem GoM.bind_eq {α β : Type} (m : GoM α) (f : α → GoM β) :
    (m >>= f) = GoM.andThen m f := rfl

@[simp] theorem GoM.pure_eq {α : Type} (a : α) : (pure a : GoM α) = GoM.ret a := rfl

/-- A call through a bound function variable returns the answer of the library and logs
the call. -/
theorem callNative_bound {α : Type} (f : FnVar) (answer : List NativeCall → α)
    (entry : α → NativeCall) (w : World) (h : f ∈ w.bound) :
    callNative f answer entry w =
      (Outcome.returned (answer w.calls),
        { w with calls := w.calls ++ [entry (answer w.calls)] }) := by
  simp [callNative, h]

/-- Masking an integer with a single bit is non-zero exactly when that bit is set (two's
complement, any sign). -/
theorem land_two_pow_ne_zero (r : Int) (k : Nat) :
    Int.land r ((2 : Int) ^ k) ≠ 0 ↔ r.testBit k = true := by
  have h2 : ((2 : Int) ^ k) = Int.ofNat (2 ^ k) := by simp
  rw [h2]
  cases r with
  | ofNat n =>
    show Int.ofNat (n &&& 2 ^ k) ≠ 0 ↔ n.testBit k = true
    rw [Nat.and_two_pow]
    cases hb : n.testBit k <;> simp
  | negSucc n =>
    show Int.ofNat (Nat.ldiff (2 ^ k) n) ≠ 0 ↔ (!n.testBit k) = true
    cases hb : n.testBit k
    · simp only [Bool.not_false, iff_true]
      intro h0
      have h1 : Nat.ldiff (2 ^ k) n = 0 := Int.ofNat_eq_zero.mp h0
      have h3 := Nat.testBit_ldiff (2 ^ k) n k
      rw [h1, hb, Nat.testBit_two_pow] at h3
      simp at h3
    · have h1 : Nat.ldiff (2 ^ k) n = 0 := by
        apply Nat.eq_of_testBit_eq
        intro i
        rw [Nat.testBit_ldiff, Nat.testBit_two_pow, Nat.zero_testBit]
        by_cases hik : k = i
        · subst hik; simp [hb]
        · simp [hik]
      rw [h1]; simp

/-- The world after `Init` on the demo host: initialised, module handle 4096, the 65
function variables bound, and one native call made (JPH_Init, which answered true). -/
theorem demoWorld_eq :
    demoWorld = ⟨true, 4096, (registrations.map Prod.fst).reverse, [NativeCall.Init true]⟩ := by
  decide!

/-- Every function variable is bound in the demo world. -/
theorem demoWorld_bound (f : FnVar) : f ∈ demoWorld.bound := by
  rw [demoWorld_eq]
  cases f <;> decide

/-! ## C1, C2: the update bitmask -/

/-- C1: whatever value r the native update call returns (every integer, so every 32-bit
value), PhysicsSystem.Update returns normally with exactly r as its result, so the result is
PhysicsUpdateErrorNone iff r = 0 and masking the result with ManifoldCacheFull,
BodyPairCacheFull, ContactConstraintFull is non-zero iff bit 0, 1, 2 of r is set.  The
native call is made through the function variable jphPhysicsSystemUpdate, which has to be
bound for the call to happen at all. -/
theorem C1_update_returns_native_bitmask (N : Joltc) (ps : PhysicsSystem)
    (deltaTime : float32) (collisionSteps : Int) (jobSystem : JobSystem) (w : World) (r : Int)
    (hbound : FnVar.jphPhysicsSystemUpdate ∈ w.bound)
    (hr : N.PhysicsSystemUpdate w.calls ps.handle (passFloat32 deltaTime)
      (toInt32 collisionSteps) jobSystem.handle = r) :
    ∃ result : PhysicsUpdateError,
      ((PhysicsSystem.Update N ps deltaTime collisionSteps jobSystem).run w).1
        = Outcome.returned result ∧
      result = r ∧
      (result = PhysicsUpdateErrorNone ↔ r = 0) ∧
      (Int.land result PhysicsUpdateErrorManifoldCacheFull ≠ 0 ↔ r.testBit 0 = true) ∧
      (Int.land result PhysicsUpdateErrorBodyPairCacheFull ≠ 0 ↔ r.testBit 1 = true) ∧
      (Int.land result PhysicsUpdateErrorContactConstraintFull ≠ 0 ↔ r.testBit 2 = true) := by
  refine ⟨r, ?_, rfl, Iff.rfl, ?_, ?_, ?_⟩
  · simp [PhysicsSystem.Update, GoM.run, GoM.andThen, GoM.ret, jphPhysicsSystemUpdate,
      callNative_bound _ _ _ _ hbound, hr]
  · exact land_two_pow_ne_zero r 0
  · exact land_two_pow_ne_zero r 1
  · exact land_two_pow_ne_zero r 2

/-- C1 at a concrete input: in the demo world the library answers 4 to an update, which is
ContactConstraintFull alone. -/
theorem C1_update_returns_native_bitmask_witness :
    FnVar.jphPhysicsSystemUpdate ∈ demoWorld.bound ∧
    demoJoltc.PhysicsSystemUpdate demoWorld.calls 10 (passFloat32 ⟨0x3C888889⟩) (toInt32 1) 2
      = 4 ∧
    ∃ result : PhysicsUpdateError,
      ((PhysicsSystem.Update demoJoltc ⟨10, none, none, none⟩ ⟨0x3C888889⟩ 1 ⟨2⟩).run
        demoWorld).1 = Outcome.returned result ∧
      result = 4 ∧
      (result = PhysicsUpdateErrorNone ↔ (4 : Int) = 0) ∧
      (Int.land result PhysicsUpdateErrorManifoldCacheFull ≠ 0 ↔ (4 : Int).testBit 0 = true) ∧
      (Int.land result PhysicsUpdateErrorBodyPairCacheFull ≠ 0 ↔ (4 : Int).testBit 1 = true) ∧
      (Int.land result PhysicsUpdateErrorContactConstraintFull ≠ 0 ↔
        (4 : Int).testBit 2 = true) :=
  ⟨demoWorld_bound _, rfl,
    C1_update_returns_native_bitmask demoJoltc ⟨10, none, none, none⟩ ⟨0x3C888889⟩ 1 ⟨2⟩
      demoWorld 4 (demoWorld_bound _) rfl⟩

/-- C2: the update-error constants are None = 0, ManifoldCacheFull = 1,
BodyPairCacheFull = 2, ContactConstraintFull = 4. -/
theorem C2_update_error_constants :
    PhysicsUpdateErrorNone = 0 ∧ PhysicsUpdateErrorManifoldCacheFull = 1 ∧
    PhysicsUpdateErrorBodyPairCacheFull = 2 ∧ PhysicsUpdateErrorContactConstraintFull = 4 := by
  decide

end Jolt

namespace Jolt

/-! ## C3, C4, C5: construction-time configuration -/

/-- C3: with three non-null filter references, NewPhysicsSystem returns normally after
exactly one native create call, and the settings of that call carry MaxBodies, MaxBodyPairs
and MaxContactConstraints as configured when non-zero and 10240, 65536, 10240 when zero, and
NumBodyMutexes as configured (zero stays zero). -/
theorem C3_physics_system_settings (N : Joltc) (cfg : PhysicsSystemConfig) (w : World)
    (bp : BroadPhaseLayerInterface) (olpf : ObjectLayerPairFilter)
    (ovb : ObjectVsBroadPhaseLayerFilter)
    (hbp : cfg.BroadPhaseLayer = some bp) (holpf : cfg.ObjectLayerPairFilter = some olpf)
    (hovb : cfg.ObjectVsBPLayerFilter = some ovb)
    (hbound : FnVar.jphPhysicsSystemCreate ∈ w.bound) :
    ∃ (settings : physicsSystemSettings) (ret : uintptr) (out : PhysicsSystem × PhysicsSystemConfig),
      ((NewPhysicsSystem N cfg).run w).1 = Outcome.returned out ∧
      ((NewPhysicsSystem N cfg).run w).2.calls
        = w.calls ++ [NativeCall.PhysicsSystemCreate settings ret] ∧
      settings.MaxBodies = (if cfg.MaxBodies = 0 then 10240 else cfg.MaxBodies) ∧
      settings.MaxBodyPairs = (if cfg.MaxBodyPairs = 0 then 65536 else cfg.MaxBodyPairs) ∧
      settings.MaxContactConstraints
        = (if cfg.MaxContactConstraints = 0 then 10240 else cfg.MaxContactConstraints) ∧
      settings.NumBodyMutexes = cfg.NumBodyMutexes := by
  obtain ⟨mb, nm, mp, mc, b, o, v⟩ := cfg
  simp only at hbp holpf hovb
  subst hbp holpf hovb
  by_cases h1 : mb = 0 <;> by_cases h2 : mp = 0 <;> by_cases h3 : mc = 0 <;>
    simp [NewPhysicsSystem, GoM.run, GoM.andThen, GoM.ret, deref, jphPhysicsSystemCreate,
      callNative_bound _ _ _ _ hbound, h1, h2, h3]

/-- C3 at a concrete input: a ceiling of one contact constraint reaches the engine unchanged
while the unset MaxBodies becomes 10240. -/
theorem C3_physics_system_settings_witness :
    FnVar.jphPhysicsSystemCreate ∈ demoWorld.bound ∧
    ∃ (settings : physicsSystemSettings) (ret : uintptr)
      (out : PhysicsSystem × PhysicsSystemConfig),
      ((NewPhysicsSystem demoJoltc ⟨0, 0, 1024, 1, some ⟨3⟩, some ⟨6⟩, some ⟨9⟩⟩).run
        demoWorld).1 = Outcome.returned out ∧
      ((NewPhysicsSystem demoJoltc ⟨0, 0, 1024, 1, some ⟨3⟩, some ⟨6⟩, some ⟨9⟩⟩).run
        demoWorld).2.calls = demoWorld.calls ++ [NativeCall.PhysicsSystemCreate settings ret] ∧
      settings.MaxBodies = (if (0 : Nat) = 0 then 10240 else 0) ∧
      settings.MaxBodyPairs = (if (1024 : Nat) = 0 then 65536 else 1024) ∧
      settings.MaxContactConstraints = (if (1 : Nat) = 0 then 10240 else 1) ∧
      settings.NumBodyMutexes = 0 :=
  ⟨demoWorld_bound _,
    C3_physics_system_settings demoJoltc ⟨0, 0, 1024, 1, some ⟨3⟩, some ⟨6⟩, some ⟨9⟩⟩
      demoWorld ⟨3⟩ ⟨6⟩ ⟨9⟩ rfl rfl rfl (demoWorld_bound _)⟩

/-- C4: NewJobSystem returns normally after exactly one call of the native thread-pool
constructor, whose config has MaxJobs = 2048 if maxJobs = 0 else maxJobs, MaxBarrier = 8 if
maxBarriers = 0 else maxBarriers, and NumThreads = numThreads unchanged (0 and -1 included);
the wrapper returned holds the handle the constructor answered. -/
theorem C4_job_system_config (N : Joltc) (maxJobs maxBarriers : Nat) (numThreads : Int)
    (w : World) (hbound : FnVar.jphJobSystemThreadPoolCreate ∈ w.bound) :
    ∃ (config : jobSystemThreadPoolConfig) (ret : uintptr),
      (NewJobSystem N maxJobs maxBarriers numThreads).run w
        = (Outcome.returned ⟨ret⟩,
            { w with calls := w.calls ++ [NativeCall.JobSystemThreadPoolCreate config ret] }) ∧
      config.MaxJobs = (if maxJobs = 0 then 2048 else maxJobs) ∧
      config.MaxBarrier = (if maxBarriers = 0 then 8 else maxBarriers) ∧
      config.NumThreads = numThreads := by
  by_cases h1 : maxJobs = 0 <;> by_cases h2 : maxBarriers = 0 <;>
    simp [NewJobSystem, GoM.run, GoM.andThen, GoM.ret, jphJobSystemThreadPoolCreate,
      callNative_bound _ _ _ _ hbound, h1, h2]

/-- C4 at a concrete input: the call `NewJobSystem(0, 0, -1)` of the example driver. -/
theorem C4_job_system_config_witness :
    FnVar.jphJobSystemThreadPoolCreate ∈ demoWorld.bound ∧
    ∃ (config : jobSystemThreadPoolConfig) (ret : uintptr),
      (NewJobSystem demoJoltc 0 0 (-1)).run demoWorld
        = (Outcome.returned ⟨ret⟩,
            { demoWorld with
              calls := demoWorld.calls ++ [NativeCall.JobSystemThreadPoolCreate config ret] }) ∧
      config.MaxJobs = (if (0 : Nat) = 0 then 2048 else 0) ∧
      config.MaxBarrier = (if (0 : Nat) = 0 then 8 else 0) ∧
      config.NumThreads = -1 :=
  ⟨demoWorld_bound _, C4_job_system_config demoJoltc 0 0 (-1) demoWorld (demoWorld_bound _)⟩

/-- C5: when at least one of the three filter references of the config is nil,
NewPhysicsSystem panics (nil pointer dereference) and returns no PhysicsSystem, and the
world it leaves is the world it started from: no native call, the create call included, has
been made. -/
theorem C5_nil_filter_is_fatal (N : Joltc) (cfg : PhysicsSystemConfig) (w : World)
    (hnil : cfg.BroadPhaseLayer = none ∨ cfg.ObjectLayerPairFilter = none ∨
      cfg.ObjectVsBPLayerFilter = none) :
    (NewPhysicsSystem N cfg).run w = (Outcome.panicked GoPanic.nilPointerDereference, w) := by
  obtain ⟨mb, nm, mp, mc, b, o, v⟩ := cfg
  simp only at hnil
  by_cases h1 : mb = 0 <;> by_cases h2 : mp = 0 <;> by_cases h3 : mc = 0 <;>
    cases b <;> cases o <;> cases v <;>
    simp_all [NewPhysicsSystem, GoM.run, GoM.andThen, GoM.ret, deref, goPanic]

/-- C5 at a concrete input: the config of the example driver with the pair filter left
nil, in a world where the create function is bound. -/
theorem C5_nil_filter_is_fatal_witness :
    ((some (⟨3⟩ : BroadPhaseLayerInterface) = none) ∨
      ((none : Option ObjectLayerPairFilter) = none) ∨
      (some (⟨9⟩ : ObjectVsBroadPhaseLayerFilter) = none)) ∧
    (NewPhysicsSystem demoJoltc ⟨1024, 0, 1024, 1024, some ⟨3⟩, none, some ⟨9⟩⟩).run demoWorld
      = (Outcome.panicked GoPanic.nilPointerDereference, demoWorld) :=
  ⟨Or.inr (Or.inl rfl),
    C5_nil_filter_is_fatal demoJoltc ⟨1024, 0, 1024, 1024, some ⟨3⟩, none, some ⟨9⟩⟩ demoWorld
      (Or.inr (Or.inl rfl))⟩

end Jolt

namespace Jolt

/-! ## C6, C7, C8: what the wrapper does not validate -/

/-- The world the example driver reaches: the 65 function variables bound and the fifteen
native calls of its steps 1 to 6 logged; the sphere is body 13, made from shape 12. -/
theorem sceneWorld_eq :
    sceneWorld = ⟨true, 4096, (registrations.map Prod.fst).reverse,
      [ NativeCall.Init true,
        NativeCall.JobSystemThreadPoolCreate ⟨2048, 8, -1⟩ 2,
        NativeCall.BroadPhaseLayerInterfaceTableCreate 2 2 3,
        NativeCall.BroadPhaseLayerInterfaceTableMapObjectToBroadPhaseLayer 3 0 0,
        NativeCall.BroadPhaseLayerInterfaceTableMapObjectToBroadPhaseLayer 3 1 1,
        NativeCall.ObjectLayerPairFilterTableCreate 2 6,
        NativeCall.ObjectLayerPairFilterTableEnableCollision 6 0 1,
        NativeCall.ObjectLayerPairFilterTableEnableCollision 6 1 1,
        NativeCall.ObjectVsBroadPhaseLayerFilterTableCreate 3 2 6 2 9,
        NativeCall.PhysicsSystemCreate ⟨1024, 0, 1024, 1024, 3, 6, 9⟩ 10,
        NativeCall.PhysicsSystemGetBodyInterface 10 11,
        NativeCall.SphereShapeCreate ⟨0x3F000000⟩ 12,
        NativeCall.BodyCreationSettingsCreate3 12 ⟨⟨0⟩, ⟨0x41200000⟩, ⟨0⟩⟩ QuatIdentity 2 1 13,
        NativeCall.BodyInterfaceCreateAndAddBody 11 13 0 13,
        NativeCall.BodyCreationSettingsDestroy 13 ]⟩ := by
  decide!

/-- What the example driver holds at that point. -/
theorem demoScene_result :
    (demoScene.run World.fresh).1
      = Outcome.returned ⟨⟨2⟩, ⟨10, some ⟨3⟩, some ⟨6⟩, some ⟨9⟩⟩, ⟨11⟩, ⟨12⟩, 13⟩ := by
  decide!

/-- Every function variable is bound in the world of the example driver. -/
theorem sceneWorld_bound (f : FnVar) : f ∈ sceneWorld.bound := by
  rw [sceneWorld_eq]
  cases f <;> decide

/-- A wrapper that only forwards to a native function without result returns normally and
logs that one call. -/
theorem callNative_unit_run (f : FnVar) (c : NativeCall) (w : World) (h : f ∈ w.bound) :
    (callNative f (fun _ => ()) (fun _ => c)).run w
      = (Outcome.returned (), { w with calls := w.calls ++ [c] }) := by
  simp [GoM.run, callNative_bound _ _ _ _ h]

/-- Shape.Destroy on a non-zero handle. -/
theorem Shape.Destroy_run_nonzero (s : Shape) (w : World) (hs : s.handle ≠ 0)
    (h : FnVar.jphShapeDestroy ∈ w.bound) :
    s.Destroy.run w
      = (Outcome.returned ⟨0⟩,
          { w with calls := w.calls ++ [NativeCall.ShapeDestroy s.handle] }) := by
  simp [Shape.Destroy, GoM.run, GoM.andThen, GoM.ret, jphShapeDestroy,
    callNative_bound _ _ _ _ h, hs]

/-- Shape.Destroy on a zero handle. -/
theorem Shape.Destroy_run_zero (s : Shape) (w : World) (hs : s.handle = 0) :
    s.Destroy.run w = (Outcome.returned s, w) := by
  simp [Shape.Destroy, GoM.run, GoM.ret, hs]

/-- C6, as stated, fails: in the world of the example driver the only live body is 13, so
7 names no live body, yet each of the seven mutators called with id 7 returns normally (no
UnknownBody, no failure of any kind), having handed the id to the native library. -/
theorem C6_unknown_id_is_not_rejected :
    isLiveBody sceneWorld.calls 7 = false ∧
    ((BodyInterface.SetLinearVelocity ⟨11⟩ 7 ⟨⟨0⟩, ⟨0⟩, ⟨0⟩⟩).run sceneWorld).1
      = Outcome.returned () ∧
    ((BodyInterface.SetPosition ⟨11⟩ 7 ⟨⟨0⟩, ⟨0⟩, ⟨0⟩⟩ Activate).run sceneWorld).1
      = Outcome.returned () ∧
    ((BodyInterface.SetRotation ⟨11⟩ 7 QuatIdentity Activate).run sceneWorld).1
      = Outcome.returned () ∧
    ((BodyInterface.SetFriction ⟨11⟩ 7 ⟨0⟩).run sceneWorld).1 = Outcome.returned () ∧
    ((BodyInterface.SetRestitution ⟨11⟩ 7 ⟨0⟩).run sceneWorld).1 = Outcome.returned () ∧
    ((BodyInterface.SetGravityFactor ⟨11⟩ 7 ⟨0⟩).run sceneWorld).1 = Outcome.returned () ∧
    ((BodyInterface.SetMotionType ⟨11⟩ 7 MotionTypeStatic Activate).run sceneWorld).1
      = Outcome.returned () ∧
    ((BodyInterface.SetLinearVelocity ⟨11⟩ 7 ⟨⟨0⟩, ⟨0⟩, ⟨0⟩⟩).run sceneWorld).2.calls
      = sceneWorld.calls
        ++ [NativeCall.BodyInterfaceSetLinearVelocity 11 7 ⟨⟨0⟩, ⟨0⟩, ⟨0⟩⟩] := by
  refine ⟨?_, ?_, ?_, ?_, ?_, ?_, ?_, ?_, ?_⟩
  · rw [sceneWorld_eq]; decide
  · simp [BodyInterface.SetLinearVelocity, jphBodyInterfaceSetLinearVelocity,
      callNative_unit_run _ _ _ (sceneWorld_bound _)]
  · simp [BodyInterface.SetPosition, jphBodyInterfaceSetPosition,
      callNative_unit_run _ _ _ (sceneWorld_bound _)]
  · simp [BodyInterface.SetRotation, jphBodyInterfaceSetRotation,
      callNative_unit_run _ _ _ (sceneWorld_bound _)]
  · simp [BodyInterface.SetFriction, jphBodyInterfaceSetFriction,
      callNative_unit_run _ _ _ (sceneWorld_bound _)]
  · simp [BodyInterface.SetRestitution, jphBodyInterfaceSetRestitution,
      callNative_unit_run _ _ _ (sceneWorld_bound _)]
  · simp [BodyInterface.SetGravityFactor, jphBodyInterfaceSetGravityFactor,
      callNative_unit_run _ _ _ (sceneWorld_bound _)]
  · simp [BodyInterface.SetMotionType, jphBodyInterfaceSetMotionType,
      callNative_unit_run _ _ _ (sceneWorld_bound _)]
  · simp [BodyInterface.SetLinearVelocity, jphBodyInterfaceSetLinearVelocity,
      callNative_unit_run _ _ _ (sceneWorld_bound _)]

/-- A float32 that is not a NaN (a number, a zero, an infinity) reaches C as it is. -/
theorem passFloat32_of_not_nan (f : float32) (h : f.isNaN = false) : passFloat32 f = f := by
  simp [passFloat32, h]

/-- A NaN reaches C with the quiet bit set and the other bits as they are. -/
theorem passFloat32_of_nan (f : float32) (h : f.isNaN = true) :
    (passFloat32 f).bits = f.bits ||| 0x400000 := by
  simp [passFloat32, h]

/-- C6, amended: the seven body-interface mutators validate nothing.  For every body id,
live or not, each returns normally after exactly one native call, which carries the handle of
the interface and the id unchanged.  Velocity, position and rotation (handed over by
pointer), motion type and activation arrive unchanged; friction, restitution and gravity
factor (float32 handed over by value) arrive as purego passes them, which is unchanged for
every value that is not a NaN and with the quiet bit set for a NaN. -/
theorem C6_mutators_forward_unvalidated (bi : BodyInterface) (bodyID : BodyID)
    (velocity position : Vec3) (rotation : Quat) (friction restitution factor : float32)
    (motionType : MotionType) (activation : Activation) (w : World)
    (hbound : ∀ f ∈ [FnVar.jphBodyInterfaceSetLinearVelocity,
      FnVar.jphBodyInterfaceSetPosition, FnVar.jphBodyInterfaceSetRotation,
      FnVar.jphBodyInterfaceSetFriction, FnVar.jphBodyInterfaceSetRestitution,
      FnVar.jphBodyInterfaceSetGravityFactor, FnVar.jphBodyInterfaceSetMotionType],
      f ∈ w.bound) :
    (bi.SetLinearVelocity bodyID velocity).run w
      = (Outcome.returned (), { w with calls := w.calls ++
          [NativeCall.BodyInterfaceSetLinearVelocity bi.handle bodyID velocity] }) ∧
    (bi.SetPosition bodyID position activation).run w
      = (Outcome.returned (), { w with calls := w.calls ++
          [NativeCall.BodyInterfaceSetPosition bi.handle bodyID position activation] }) ∧
    (bi.SetRotation bodyID rotation activation).run w
      = (Outcome.returned (), { w with calls := w.calls ++
          [NativeCall.BodyInterfaceSetRotation bi.handle bodyID rotation activation] }) ∧
    (bi.SetFriction bodyID friction).run w
      = (Outcome.returned (), { w with calls := w.calls ++
          [NativeCall.BodyInterfaceSetFriction bi.handle bodyID (passFloat32 friction)] }) ∧
    (bi.SetRestitution bodyID restitution).run w
      = (Outcome.returned (), { w with calls := w.calls ++
          [NativeCall.BodyInterfaceSetRestitution bi.handle bodyID
            (passFloat32 restitution)] }) ∧
    (bi.SetGravityFactor bodyID factor).run w
      = (Outcome.returned (), { w with calls := w.calls ++
          [NativeCall.BodyInterfaceSetGravityFactor bi.handle bodyID (passFloat32 factor)] }) ∧
    (bi.SetMotionType bodyID motionType activation).run w
      = (Outcome.returned (), { w with calls := w.calls ++
          [NativeCall.BodyInterfaceSetMotionType bi.handle bodyID motionType activation] }) ∧
    (∀ x ∈ [friction, restitution, factor],
      (x.isNaN = false → passFloat32 x = x) ∧
      (x.isNaN = true → (passFloat32 x).bits = x.bits ||| 0x400000)) := by
  refine ⟨?_, ?_, ?_, ?_, ?_, ?_, ?_, ?_⟩
  · exact callNative_unit_run _ _ _ (hbound _ (by decide))
  · exact callNative_unit_run _ _ _ (hbound _ (by decide))
  · exact callNative_unit_run _ _ _ (hbound _ (by decide))
  · exact callNative_unit_run _ _ _ (hbound _ (by decide))
  · exact callNative_unit_run _ _ _ (hbound _ (by decide))
  · exact callNative_unit_run _ _ _ (hbound _ (by decide))
  · exact callNative_unit_run _ _ _ (hbound _ (by decide))
  · intro x _
    exact ⟨passFloat32_of_not_nan x, passFloat32_of_nan x⟩

end Jolt

namespace Jolt

/-- C6 amended, at a concrete input: on the live sphere 13 of the example driver, the
friction 0.2 (0x3E4CCCCD) reaches the library as it is, and the signalling NaN 0x7F800001
given as restitution reaches it as the quiet NaN 0x7FC00001. -/
theorem C6_mutators_forward_unvalidated_witness :
    (∀ f ∈ [FnVar.jphBodyInterfaceSetLinearVelocity,
      FnVar.jphBodyInterfaceSetPosition, FnVar.jphBodyInterfaceSetRotation,
      FnVar.jphBodyInterfaceSetFriction, FnVar.jphBodyInterfaceSetRestitution,
      FnVar.jphBodyInterfaceSetGravityFactor, FnVar.jphBodyInterfaceSetMotionType],
      f ∈ sceneWorld.bound) ∧
    passFloat32 ⟨0x3E4CCCCD⟩ = ⟨0x3E4CCCCD⟩ ∧
    passFloat32 ⟨0x7F800001⟩ = ⟨0x7FC00001⟩ ∧
    (BodyInterface.SetFriction ⟨11⟩ 13 ⟨0x3E4CCCCD⟩).run sceneWorld
      = (Outcome.returned (), { sceneWorld with calls := sceneWorld.calls ++
          [NativeCall.BodyInterfaceSetFriction 11 13 (passFloat32 ⟨0x3E4CCCCD⟩)] }) ∧
    (BodyInterface.SetRestitution ⟨11⟩ 13 ⟨0x7F800001⟩).run sceneWorld
      = (Outcome.returned (), { sceneWorld with calls := sceneWorld.calls ++
          [NativeCall.BodyInterfaceSetRestitution 11 13 (passFloat32 ⟨0x7F800001⟩)] }) :=
  ⟨fun f _ => sceneWorld_bound f, by decide, by decide,
    (C6_mutators_forward_unvalidated ⟨11⟩ 13 ⟨⟨0⟩, ⟨0⟩, ⟨0⟩⟩ ⟨⟨0⟩, ⟨0⟩, ⟨0⟩⟩ QuatIdentity
      ⟨0x3E4CCCCD⟩ ⟨0x7F800001⟩ ⟨0x3F800000⟩ MotionTypeDynamic Activate sceneWorld
      (fun f _ => sceneWorld_bound f)).2.2.2.1,
    (C6_mutators_forward_unvalidated ⟨11⟩ 13 ⟨⟨0⟩, ⟨0⟩, ⟨0⟩⟩ ⟨⟨0⟩, ⟨0⟩, ⟨0⟩⟩ QuatIdentity
      ⟨0x3E4CCCCD⟩ ⟨0x7F800001⟩ ⟨0x3F800000⟩ MotionTypeDynamic Activate sceneWorld
      (fun f _ => sceneWorld_bound f)).2.2.2.2.1⟩

/-- C7, as stated, fails: in the world of the example driver the live sphere 13 was created
from shape 12, the shape the driver holds, yet Destroy on that shape returns normally, having
called the native destroy function on handle 12 and zeroed the handle of the wrapper. -/
theorem C7_shape_in_use_is_released :
    (demoScene.run World.fresh).1
      = Outcome.returned ⟨⟨2⟩, ⟨10, some ⟨3⟩, some ⟨6⟩, some ⟨9⟩⟩, ⟨11⟩, ⟨12⟩, 13⟩ ∧
    isLiveBody sceneWorld.calls 13 = true ∧
    shapeInUse sceneWorld.calls 12 = true ∧
    (Shape.Destroy ⟨12⟩).run sceneWorld
      = (Outcome.returned ⟨0⟩,
          { sceneWorld with calls := sceneWorld.calls ++ [NativeCall.ShapeDestroy 12] }) := by
  refine ⟨demoScene_result, ?_, ?_, ?_⟩
  · rw [sceneWorld_eq]; decide
  · rw [sceneWorld_eq]; decide
  · exact Shape.Destroy_run_nonzero ⟨12⟩ sceneWorld (by decide) (sceneWorld_bound _)

/-- C7, amended: Shape.Destroy checks no reference.  In every world, whether or not a live
body was created from the shape, Destroy on a wrapper with a non-zero handle returns normally
after exactly one native destroy call on that handle and leaves the handle of the wrapper
zero; on a wrapper whose handle is zero it calls nothing and changes nothing. -/
theorem C7_destroy_checks_no_reference (s : Shape) (w : World)
    (hbound : FnVar.jphShapeDestroy ∈ w.bound) :
    (s.handle ≠ 0 →
      s.Destroy.run w
        = (Outcome.returned ⟨0⟩,
            { w with calls := w.calls ++ [NativeCall.ShapeDestroy s.handle] })) ∧
    (s.handle = 0 → s.Destroy.run w = (Outcome.returned s, w)) :=
  ⟨fun hs => Shape.Destroy_run_nonzero s w hs hbound, fun hs => Shape.Destroy_run_zero s w hs⟩

/-- C7 amended, at a concrete input: the shape of the live sphere, and a wrapper already
destroyed. -/
theorem C7_destroy_checks_no_reference_witness :
    FnVar.jphShapeDestroy ∈ sceneWorld.bound ∧
    (Shape.Destroy ⟨12⟩).run sceneWorld
      = (Outcome.returned ⟨0⟩,
          { sceneWorld with calls := sceneWorld.calls ++ [NativeCall.ShapeDestroy 12] }) ∧
    (Shape.Destroy ⟨0⟩).run sceneWorld = (Outcome.returned ⟨0⟩, sceneWorld) :=
  ⟨sceneWorld_bound _,
    (C7_destroy_checks_no_reference ⟨12⟩ sceneWorld (sceneWorld_bound _)).1 (by decide),
    (C7_destroy_checks_no_reference ⟨0⟩ sceneWorld (sceneWorld_bound _)).2 rfl⟩

/-- NewBroadPhaseLayerInterfaceTable forwards and wraps. -/
theorem NewBroadPhaseLayerInterfaceTable_run (N : Joltc) (n m : Nat) (w : World)
    (h : FnVar.jphBroadPhaseLayerInterfaceTableCreate ∈ w.bound) :
    (NewBroadPhaseLayerInterfaceTable N n m).run w
      = (Outcome.returned ⟨N.BroadPhaseLayerInterfaceTableCreate w.calls n m⟩,
          { w with calls := w.calls ++ [NativeCall.BroadPhaseLayerInterfaceTableCreate n m
            (N.BroadPhaseLayerInterfaceTableCreate w.calls n m)] }) := by
  simp [NewBroadPhaseLayerInterfaceTable, GoM.run, GoM.andThen, GoM.ret,
    jphBroadPhaseLayerInterfaceTableCreate, callNative_bound _ _ _ _ h]

/-- NewObjectLayerPairFilterTable forwards and wraps. -/
theorem NewObjectLayerPairFilterTable_run (N : Joltc) (n : Nat) (w : World)
    (h : FnVar.jphObjectLayerPairFilterTableCreate ∈ w.bound) :
    (NewObjectLayerPairFilterTable N n).run w
      = (Outcome.returned ⟨N.ObjectLayerPairFilterTableCreate w.calls n⟩,
          { w with calls := w.calls ++ [NativeCall.ObjectLayerPairFilterTableCreate n
            (N.ObjectLayerPairFilterTableCreate w.calls n)] }) := by
  simp [NewObjectLayerPairFilterTable, GoM.run, GoM.andThen, GoM.ret,
    jphObjectLayerPairFilterTableCreate, callNative_bound _ _ _ _ h]

/-- C8, as stated, fails: after Init on the demo host both constructors, called with
cardinality zero, return normally a table wrapper holding the non-zero handle the library
answered, instead of failing with InvalidLayerCount. -/
theorem C8_zero_cardinality_is_accepted :
    (NewBroadPhaseLayerInterfaceTable demoJoltc 0 0).run demoWorld
      = (Outcome.returned ⟨2⟩,
          { demoWorld with calls := demoWorld.calls
              ++ [NativeCall.BroadPhaseLayerInterfaceTableCreate 0 0 2] }) ∧
    (NewObjectLayerPairFilterTable demoJoltc 0).run demoWorld
      = (Outcome.returned ⟨2⟩,
          { demoWorld with calls := demoWorld.calls
              ++ [NativeCall.ObjectLayerPairFilterTableCreate 0 2] }) := by
  refine ⟨?_, ?_⟩
  · rw [NewBroadPhaseLayerInterfaceTable_run _ _ _ _ (demoWorld_bound _), demoWorld_eq]
    rfl
  · rw [NewObjectLayerPairFilterTable_run _ _ _ (demoWorld_bound _), demoWorld_eq]
    rfl

/-- C8, amended: the two table constructors check no cardinality.  For all arguments, zero
included, each returns normally after exactly one native create call that carries the
arguments unchanged, and the wrapper returned holds the handle that call answered. -/
theorem C8_table_constructors_forward (N : Joltc) (numObjectLayers numBroadPhaseLayers : Nat)
    (w : World)
    (hbp : FnVar.jphBroadPhaseLayerInterfaceTableCreate ∈ w.bound)
    (hof : FnVar.jphObjectLayerPairFilterTableCreate ∈ w.bound) :
    (∃ ret : uintptr,
      (NewBroadPhaseLayerInterfaceTable N numObjectLayers numBroadPhaseLayers).run w
        = (Outcome.returned ⟨ret⟩,
            { w with calls := w.calls ++ [NativeCall.BroadPhaseLayerInterfaceTableCreate
              numObjectLayers numBroadPhaseLayers ret] })) ∧
    (∃ ret : uintptr,
      (NewObjectLayerPairFilterTable N numObjectLayers).run w
        = (Outcome.returned ⟨ret⟩,
            { w with calls := w.calls ++ [NativeCall.ObjectLayerPairFilterTableCreate
              numObjectLayers ret] })) :=
  ⟨⟨_, NewBroadPhaseLayerInterfaceTable_run N _ _ w hbp⟩,
    ⟨_, NewObjectLayerPairFilterTable_run N _ w hof⟩⟩

/-- C8 amended, at a concrete input: the cardinalities 2 and 2 of the example driver. -/
theorem C8_table_constructors_forward_witness :
    FnVar.jphBroadPhaseLayerInterfaceTableCreate ∈ demoWorld.bound ∧
    FnVar.jphObjectLayerPairFilterTableCreate ∈ demoWorld.bound ∧
    (∃ ret : uintptr,
      (NewBroadPhaseLayerInterfaceTable demoJoltc 2 2).run demoWorld
        = (Outcome.returned ⟨ret⟩,
            { demoWorld with calls := demoWorld.calls
                ++ [NativeCall.BroadPhaseLayerInterfaceTableCreate 2 2 ret] })) ∧
    (∃ ret : uintptr,
      (NewObjectLayerPairFilterTable demoJoltc 2).run demoWorld
        = (Outcome.returned ⟨ret⟩,
            { demoWorld with calls := demoWorld.calls
                ++ [NativeCall.ObjectLayerPairFilterTableCreate 2 ret] })) :=
  ⟨demoWorld_bound _, demoWorld_bound _,
    C8_table_constructors_forward demoJoltc 2 2 demoWorld (demoWorld_bound _)
      (demoWorld_bound _)⟩

end Jolt

namespace Jolt

/-! ## C9, C10: Init and the loading of the library -/

/-- Registering symbols touches only the function variables. -/
theorem registerEach_frame (P : Platform) (handle : uintptr) (l : List (FnVar × String))
    (w : World) :
    (registerEach P handle l w).2.calls = w.calls ∧
    (registerEach P handle l w).2.initialized = w.initialized ∧
    (registerEach P handle l w).2.lib = w.lib := by
  induction l generalizing w with
  | nil => simp [registerEach, GoM.ret]
  | cons p rest ih =>
    obtain ⟨f, s⟩ := p
    by_cases hs : P.hasSymbol handle s = true
    · have := ih { w with bound := f :: w.bound }
      simpa [registerEach, GoM.andThen, RegisterLibFunc, hs] using this
    · simp [registerEach, GoM.andThen, RegisterLibFunc, hs]

/-- When registering returns, every listed function variable is bound and nothing that was
bound is lost. -/
theorem registerEach_bound (P : Platform) (handle : uintptr) (l : List (FnVar × String))
    (w w1 : World) (h : registerEach P handle l w = (Outcome.returned (), w1)) :
    (∀ p ∈ l, p.1 ∈ w1.bound) ∧ (∀ f ∈ w.bound, f ∈ w1.bound) := by
  induction l generalizing w with
  | nil =>
    simp [registerEach, GoM.ret] at h
    subst h
    simp
  | cons p rest ih =>
    obtain ⟨f, s⟩ := p
    by_cases hs : P.hasSymbol handle s = true
    · have h2 : registerEach P handle rest { w with bound := f :: w.bound }
          = (Outcome.returned (), w1) := by
        simpa [registerEach, GoM.andThen, RegisterLibFunc, hs] using h
      obtain ⟨ha, hb⟩ := ih _ h2
      refine ⟨?_, ?_⟩
      · intro p hp
        rcases List.mem_cons.mp hp with rfl | hp
        · exact hb _ (by simp)
        · exact ha p hp
      · intro g hg
        exact hb g (by simp [hg])
    · simp [registerEach, GoM.andThen, RegisterLibFunc, hs] at h

/-- Sequencing after a normal return continues with the value returned. -/
theorem andThen_returned {α β : Type} (m : GoM α) (f : α → GoM β) (w w1 : World) (a : α)
    (h : m w = (Outcome.returned a, w1)) : m.andThen f w = f a w1 := by
  simp [GoM.andThen, h]

/-- Sequencing after a panic stops there. -/
theorem andThen_panicked {α β : Type} (m : GoM α) (f : α → GoM β) (w w1 : World)
    (p : GoPanic) (h : m w = (Outcome.panicked p, w1)) :
    m.andThen f w = (Outcome.panicked p, w1) := by
  simp [GoM.andThen, h]

/-- Function getLibraryName leaves the world alone. -/
theorem getLibraryName_world (GOOS : String) (w : World) :
    (getLibraryName GOOS w).2 = w := by
  unfold getLibraryName
  split_ifs <;> rfl

/-- When loadLibrary returns nil, it has made no native call, has left `initialized` alone
and has bound every function variable of the registration list. -/
theorem loadLibrary_returned_nil (P : Platform) (w w1 : World)
    (h : (loadLibrary P).run w = (Outcome.returned none, w1)) :
    w1.calls = w.calls ∧ w1.initialized = w.initialized ∧
    ∀ p ∈ registrations, p.1 ∈ w1.bound := by
  unfold loadLibrary at h
  simp only [GoM.run, GoM.bind_eq, GoM.pure_eq] at h
  have hgw := getLibraryName_world P.GOOS w
  rcases hg : getLibraryName P.GOOS w with ⟨o, w0⟩
  rw [hg] at hgw
  simp only at hgw
  subst hgw
  cases o with
  | panicked p =>
    rw [andThen_panicked _ _ _ _ _ hg] at h
    simp at h
  | returned name =>
    rw [andThen_returned _ _ _ _ _ hg] at h
    cases hdll : P.NewLazyDLL name with
    | none =>
      simp only [hdll] at h
      rw [andThen_returned _ _ _ _ _ hg] at h
      simp [GoM.ret] at h
    | some d =>
      simp only [hdll] at h
      cases hh : P.Handle d with
      | panicked p =>
        have h1 : LazyDLL.Handle P d w0 = (Outcome.panicked p, w0) := by
          simp [LazyDLL.Handle, hh]
        rw [andThen_panicked _ _ _ _ _ h1] at h
        simp at h
      | returned hd =>
        have h1 : ∀ w2 : World, LazyDLL.Handle P d w2 = (Outcome.returned hd, w2) := by
          intro w2; simp [LazyDLL.Handle, hh]
        have h2 : setLib hd w0 = (Outcome.returned (), { w0 with lib := hd }) := rfl
        rw [andThen_returned _ _ _ _ _ (h1 w0), andThen_returned _ _ _ _ _ h2,
          andThen_returned _ _ _ _ _ (h1 _)] at h
        have hf := registerEach_frame P hd registrations { w0 with lib := hd }
        rcases hr : registerEach P hd registrations { w0 with lib := hd } with ⟨o, w2⟩
        rw [hr] at hf
        have hr2 : registerSymbols P hd { w0 with lib := hd } = (o, w2) := hr
        cases o with
        | panicked p =>
          rw [andThen_panicked _ _ _ _ _ hr2] at h
          simp at h
        | returned u =>
          rw [andThen_returned _ _ _ _ _ hr2] at h
          simp only [GoM.ret, Prod.mk.injEq, true_and] at h
          subst h
          obtain ⟨hb, _⟩ := registerEach_bound P hd registrations _ _ hr
          exact ⟨hf.1, hf.2.1, hb⟩

/-- Function Init on an uninitialised engine whose library loads: JPH_Init is called once,
and its answer decides both the error returned and the flag. -/
theorem Init_run_of_load (P : Platform) (w w1 : World) (hinit : w.initialized = false)
    (hload : (loadLibrary P).run w = (Outcome.returned none, w1)) :
    (Init P).run w =
      if P.native.Init w1.calls = true then
        (Outcome.returned none,
          { w1 with calls := w1.calls ++ [NativeCall.Init true], initialized := true })
      else
        (Outcome.returned (some "jolt: JPH_Init failed"),
          { w1 with calls := w1.calls ++ [NativeCall.Init false] }) := by
  obtain ⟨_, _, hb⟩ := loadLibrary_returned_nil P w w1 hload
  have hbound : FnVar.jphInit ∈ w1.bound := hb (FnVar.jphInit, "JPH_Init") (by decide)
  have h0 : getInitialized w = (Outcome.returned false, w) := by
    simp [getInitialized, hinit]
  have hj : jphInit P.native w1 = (Outcome.returned (P.native.Init w1.calls),
      { w1 with calls := w1.calls ++ [NativeCall.Init (P.native.Init w1.calls)] }) :=
    callNative_bound _ _ _ _ hbound
  unfold Init
  simp only [GoM.run, GoM.bind_eq, GoM.pure_eq] at hload ⊢
  rw [andThen_returned _ _ _ _ _ h0]
  simp only [Bool.false_eq_true, if_false]
  rw [andThen_returned _ _ _ _ _ hload]
  simp only
  rw [andThen_returned _ _ _ _ _ hj]
  cases hi : P.native.Init w1.calls <;> simp [GoM.ret, GoM.andThen, setInitialized]

/-- The error return of loadLibrary is taken only when `windows.NewLazyDLL` hands back a nil
pointer, and then carries the message with the library name. -/
theorem loadLibrary_error_needs_nil_dll (P : Platform) (w w1 : World) (e : String)
    (h : (loadLibrary P).run w = (Outcome.returned (some e), w1)) :
    ∃ name : String, P.NewLazyDLL name = none ∧
      e = "jolt: failed to load joltc library (" ++ name ++ ")" := by
  unfold loadLibrary at h
  simp only [GoM.run, GoM.bind_eq, GoM.pure_eq] at h
  have hgw := getLibraryName_world P.GOOS w
  rcases hg : getLibraryName P.GOOS w with ⟨o, w0⟩
  rw [hg] at hgw
  simp only at hgw
  subst hgw
  cases o with
  | panicked p =>
    rw [andThen_panicked _ _ _ _ _ hg] at h
    simp at h
  | returned name =>
    rw [andThen_returned _ _ _ _ _ hg] at h
    cases hdll : P.NewLazyDLL name with
    | none =>
      simp only [hdll] at h
      rw [andThen_returned _ _ _ _ _ hg] at h
      simp only [GoM.ret, Prod.mk.injEq, Outcome.returned.injEq, Option.some.injEq] at h
      exact ⟨name, hdll, h.1.symm⟩
    | some d =>
      simp only [hdll] at h
      cases hh : P.Handle d with
      | panicked p =>
        have h1 : LazyDLL.Handle P d w0 = (Outcome.panicked p, w0) := by
          simp [LazyDLL.Handle, hh]
        rw [andThen_panicked _ _ _ _ _ h1] at h
        simp at h
      | returned hd =>
        have h1 : ∀ w2 : World, LazyDLL.Handle P d w2 = (Outcome.returned hd, w2) := by
          intro w2; simp [LazyDLL.Handle, hh]
        have h2 : setLib hd w0 = (Outcome.returned (), { w0 with lib := hd }) := rfl
        rw [andThen_returned _ _ _ _ _ (h1 w0), andThen_returned _ _ _ _ _ h2,
          andThen_returned _ _ _ _ _ (h1 _)] at h
        rcases hr : registerSymbols P hd { w0 with lib := hd } with ⟨o, w2⟩
        cases o with
        | panicked p =>
          rw [andThen_panicked _ _ _ _ _ hr] at h
          simp at h
        | returned u =>
          rw [andThen_returned _ _ _ _ _ hr] at h
          simp [GoM.ret] at h

/-- On the demo host loadLibrary returns nil from a fresh process and leaves the loaded
world. -/
theorem loadLibrary_demoHost :
    (loadLibrary demoHost).run World.fresh = (Outcome.returned none, loadedWorld) := by
  decide!

/-- The library answers do not matter to loadLibrary: the same holds on the host whose
JPH_Init fails. -/
theorem loadLibrary_failingInitHost :
    (loadLibrary failingInitHost).run World.fresh = (Outcome.returned none, loadedWorld) := by
  decide!

/-- C9: on an engine that is not initialised and whose library loads (loadLibrary returns
nil), Init calls JPH_Init exactly once and returns a non-nil error if and only if JPH_Init
answered false.  In that case the flag stays false, and a later Init whose library loads
calls JPH_Init again; when JPH_Init answered true, Init returns nil and the flag is true. -/
theorem C9_init_error_iff_native_failure (P : Platform) (w w1 : World)
    (hinit : w.initialized = false)
    (hload : (loadLibrary P).run w = (Outcome.returned none, w1)) :
    (∃ err : error, ((Init P).run w).1 = Outcome.returned err ∧
      (err ≠ none ↔ P.native.Init w.calls = false)) ∧
    ((Init P).run w).2.calls = w.calls ++ [NativeCall.Init (P.native.Init w.calls)] ∧
    (P.native.Init w.calls = false →
      ((Init P).run w).2.initialized = false ∧
      ∀ w3 : World, (loadLibrary P).run ((Init P).run w).2 = (Outcome.returned none, w3) →
        ((Init P).run ((Init P).run w).2).2.calls
          = ((Init P).run w).2.calls
              ++ [NativeCall.Init (P.native.Init ((Init P).run w).2.calls)]) ∧
    (P.native.Init w.calls = true →
      ((Init P).run w).1 = Outcome.returned none ∧
      ((Init P).run w).2.initialized = true) := by
  obtain ⟨hc, hi, _⟩ := loadLibrary_returned_nil P w w1 hload
  have hrun := Init_run_of_load P w w1 hinit hload
  rw [hc] at hrun
  cases hans : P.native.Init w.calls
  · rw [hans] at hrun
    simp only [Bool.false_eq_true, if_false] at hrun
    have hflag : ((Init P).run w).2.initialized = false := by
      rw [hrun]; simp [hi, hinit]
    refine ⟨⟨_, by rw [hrun], by simp⟩, by rw [hrun], ?_, by simp⟩
    intro _
    refine ⟨hflag, ?_⟩
    intro w3 hload3
    obtain ⟨hc3, _, _⟩ := loadLibrary_returned_nil P _ w3 hload3
    have hrun3 := Init_run_of_load P _ w3 hflag hload3
    rw [hc3] at hrun3
    rw [hrun3]
    split_ifs with h3 <;> simp [h3]
  · rw [hans] at hrun
    simp only [if_true] at hrun
    refine ⟨⟨_, by rw [hrun], by simp⟩, by rw [hrun], by simp, ?_⟩
    intro _
    rw [hrun]
    exact ⟨rfl, rfl⟩

/-- C9 at a concrete input: a fresh process on the host whose JPH_Init reports failure. -/
theorem C9_init_error_iff_native_failure_witness :
    World.fresh.initialized = false ∧
    (loadLibrary failingInitHost).run World.fresh = (Outcome.returned none, loadedWorld) ∧
    ((∃ err : error, ((Init failingInitHost).run World.fresh).1 = Outcome.returned err ∧
      (err ≠ none ↔ failingInitHost.native.Init World.fresh.calls = false)) ∧
    ((Init failingInitHost).run World.fresh).2.calls
      = World.fresh.calls ++ [NativeCall.Init (failingInitHost.native.Init World.fresh.calls)] ∧
    (failingInitHost.native.Init World.fresh.calls = false →
      ((Init failingInitHost).run World.fresh).2.initialized = false ∧
      ∀ w3 : World,
        (loadLibrary failingInitHost).run ((Init failingInitHost).run World.fresh).2
            = (Outcome.returned none, w3) →
        ((Init failingInitHost).run ((Init failingInitHost).run World.fresh).2).2.calls
          = ((Init failingInitHost).run World.fresh).2.calls
              ++ [NativeCall.Init (failingInitHost.native.Init
                    ((Init failingInitHost).run World.fresh).2.calls)]) ∧
    (failingInitHost.native.Init World.fresh.calls = true →
      ((Init failingInitHost).run World.fresh).1 = Outcome.returned none ∧
      ((Init failingInitHost).run World.fresh).2.initialized = true)) :=
  ⟨rfl, loadLibrary_failingInitHost,
    C9_init_error_iff_native_failure failingInitHost World.fresh loadedWorld rfl
      loadLibrary_failingInitHost⟩

/-- C10, evaluated where it fails: on a Windows host without joltc.dll, from a fresh
process, loadLibrary does not return the error "jolt: failed to load joltc library
(joltc.dll)" and Init does not return it either: both panic, out of `LazyDLL.Handle`, with
the engine left uninitialised and no native call made. -/
theorem C10_missing_library_panics :
    (loadLibrary bareHost).run World.fresh
      = (Outcome.panicked (GoPanic.dependency "windows.LazyDLL.mustLoad"), World.fresh) ∧
    (Init bareHost).run World.fresh
      = (Outcome.panicked (GoPanic.dependency "windows.LazyDLL.mustLoad"), World.fresh) := by
  decide!

end Jolt

namespace Jolt

/-! ## C11: the filter references of a physics system -/

/-- C11: with three non-null filter references, the PhysicsSystem that NewPhysicsSystem
returns holds in bpLayerInterface, objLayerFilter and objVsBPFilter the three references of
the config, each in its own field, and the settings of the one native create call carry the
handle of the broad-phase layer interface, of the pair filter and of the object-vs-broad-phase
filter in the fields BroadPhaseLayerInterface, ObjectLayerPairFilter and
ObjectVsBroadPhaseLayerFilter, in that order.  (A reference is modelled by the object it
points to, so "the same object" reads as equality.) -/
theorem C11_system_holds_supplied_filters (N : Joltc) (cfg : PhysicsSystemConfig) (w : World)
    (bp : BroadPhaseLayerInterface) (olpf : ObjectLayerPairFilter)
    (ovb : ObjectVsBroadPhaseLayerFilter)
    (hbp : cfg.BroadPhaseLayer = some bp) (holpf : cfg.ObjectLayerPairFilter = some olpf)
    (hovb : cfg.ObjectVsBPLayerFilter = some ovb)
    (hbound : FnVar.jphPhysicsSystemCreate ∈ w.bound) :
    ∃ (settings : physicsSystemSettings) (ret : uintptr) (ps : PhysicsSystem)
      (cfgOut : PhysicsSystemConfig),
      ((NewPhysicsSystem N cfg).run w).1 = Outcome.returned (ps, cfgOut) ∧
      ((NewPhysicsSystem N cfg).run w).2.calls
        = w.calls ++ [NativeCall.PhysicsSystemCreate settings ret] ∧
      ps.handle = ret ∧
      ps.bpLayerInterface = some bp ∧
      ps.objLayerFilter = some olpf ∧
      ps.objVsBPFilter = some ovb ∧
      settings.BroadPhaseLayerInterface = bp.handle ∧
      settings.ObjectLayerPairFilter = olpf.handle ∧
      settings.ObjectVsBroadPhaseLayerFilter = ovb.handle := by
  obtain ⟨mb, nm, mp, mc, b, o, v⟩ := cfg
  simp only at hbp holpf hovb
  subst hbp holpf hovb
  by_cases h1 : mb = 0 <;> by_cases h2 : mp = 0 <;> by_cases h3 : mc = 0 <;>
    (simp [NewPhysicsSystem, GoM.run, GoM.andThen, GoM.ret, deref, jphPhysicsSystemCreate,
      callNative_bound _ _ _ _ hbound, h1, h2, h3]
     exact ⟨_, _, ⟨rfl, rfl⟩, rfl, rfl, rfl, rfl⟩)

/-- C11 at a concrete input: the config of the example driver, whose three filters have the
distinct handles 3, 6 and 9. -/
theorem C11_system_holds_supplied_filters_witness :
    FnVar.jphPhysicsSystemCreate ∈ demoWorld.bound ∧
    ∃ (settings : physicsSystemSettings) (ret : uintptr) (ps : PhysicsSystem)
      (cfgOut : PhysicsSystemConfig),
      ((NewPhysicsSystem demoJoltc ⟨1024, 0, 1024, 1024, some ⟨3⟩, some ⟨6⟩, some ⟨9⟩⟩).run
        demoWorld).1 = Outcome.returned (ps, cfgOut) ∧
      ((NewPhysicsSystem demoJoltc ⟨1024, 0, 1024, 1024, some ⟨3⟩, some ⟨6⟩, some ⟨9⟩⟩).run
        demoWorld).2.calls = demoWorld.calls ++ [NativeCall.PhysicsSystemCreate settings ret] ∧
      ps.handle = ret ∧
      ps.bpLayerInterface = some ⟨3⟩ ∧
      ps.objLayerFilter = some ⟨6⟩ ∧
      ps.objVsBPFilter = some ⟨9⟩ ∧
      settings.BroadPhaseLayerInterface = 3 ∧
      settings.ObjectLayerPairFilter = 6 ∧
      settings.ObjectVsBroadPhaseLayerFilter = 9 :=
  ⟨demoWorld_bound _,
    C11_system_holds_supplied_filters demoJoltc
      ⟨1024, 0, 1024, 1024, some ⟨3⟩, some ⟨6⟩, some ⟨9⟩⟩ demoWorld ⟨3⟩ ⟨6⟩ ⟨9⟩ rfl rfl rfl
      (demoWorld_bound _)⟩

/-! ## C12 to C15: library name and constants -/

/-- C12: getLibraryName returns "joltc.dll" for windows, "libjoltc.dylib" for darwin and
"libjoltc.so" for linux and panics, with the message naming the system, for every other
operating-system name; so a name it returns is never empty and is one of those three.  It
never changes the world. -/
theorem C12_library_name_by_os (GOOS : String) (w : World) :
    (getLibraryName "windows").run w = (Outcome.returned "joltc.dll", w) ∧
    (getLibraryName "darwin").run w = (Outcome.returned "libjoltc.dylib", w) ∧
    (getLibraryName "linux").run w = (Outcome.returned "libjoltc.so", w) ∧
    (GOOS ≠ "windows" → GOOS ≠ "darwin" → GOOS ≠ "linux" →
      (getLibraryName GOOS).run w
        = (Outcome.panicked (GoPanic.value ("jolt: unsupported GOOS=" ++ GOOS)), w)) ∧
    (∀ name : String, ((getLibraryName GOOS).run w).1 = Outcome.returned name →
      name ≠ "" ∧ (name = "joltc.dll" ∨ name = "libjoltc.dylib" ∨ name = "libjoltc.so")) := by
  refine ⟨rfl, rfl, rfl, ?_, ?_⟩
  · intro h1 h2 h3
    simp [getLibraryName, GoM.run, goPanic, h1, h2, h3]
  · intro name h
    unfold getLibraryName at h
    simp only [GoM.run, GoM.pure_eq] at h
    split_ifs at h <;>
      simp only [GoM.ret, goPanic, Outcome.returned.injEq] at h
    · subst h; exact ⟨by decide, Or.inl rfl⟩
    · subst h; exact ⟨by decide, Or.inr (Or.inl rfl)⟩
    · subst h; exact ⟨by decide, Or.inr (Or.inr rfl)⟩
    · exact absurd h (by simp)

/-- C12 at a concrete input: a system the wrapper does not support, and linux. -/
theorem C12_library_name_by_os_witness :
    (getLibraryName "freebsd").run World.fresh
      = (Outcome.panicked (GoPanic.value "jolt: unsupported GOOS=freebsd"), World.fresh) ∧
    ("libjoltc.so" ≠ "" ∧
      ("libjoltc.so" = "joltc.dll" ∨ "libjoltc.so" = "libjoltc.dylib" ∨
        "libjoltc.so" = "libjoltc.so")) :=
  ⟨(C12_library_name_by_os "freebsd" World.fresh).2.2.2.1 (by decide) (by decide) (by decide),
    (C12_library_name_by_os "linux" World.fresh).2.2.2.2 "libjoltc.so" rfl⟩

/-- C13: QuatIdentity is the quaternion whose X, Y and Z denote the number 0 (positive
zero, all bits clear) and whose W, the scalar part, denotes the number 1. -/
theorem C13_quat_identity :
    QuatIdentity.X.toRat = some 0 ∧ QuatIdentity.Y.toRat = some 0 ∧
    QuatIdentity.Z.toRat = some 0 ∧ QuatIdentity.W.toRat = some 1 ∧
    QuatIdentity.X.bits = 0 ∧ QuatIdentity.Y.bits = 0 ∧ QuatIdentity.Z.bits = 0 := by
  refine ⟨?_, ?_, ?_, ?_, rfl, rfl, rfl⟩ <;> norm_num [QuatIdentity, float32.toRat]

/-- C14: MotionTypeStatic, Kinematic, Dynamic are 0, 1, 2; Activate and DontActivate are
0 and 1; MotionQualityDiscrete and LinearCast are 0 and 1; within each enumeration the
values are pairwise distinct. -/
theorem C14_enumeration_constants :
    (MotionTypeStatic = 0 ∧ MotionTypeKinematic = 1 ∧ MotionTypeDynamic = 2) ∧
    (Activate = 0 ∧ DontActivate = 1) ∧
    (MotionQualityDiscrete = 0 ∧ MotionQualityLinearCast = 1) ∧
    [MotionTypeStatic, MotionTypeKinematic, MotionTypeDynamic].Nodup ∧
    [Activate, DontActivate].Nodup ∧
    [MotionQualityDiscrete, MotionQualityLinearCast].Nodup := by
  decide

/-- C15: AllowedDOFsAll is 0b111111 and the bitwise OR of the six single-axis flags; the
six flags are the single bits 0 to 5, pairwise disjoint; AllowedDOFsPlane2D is
TranslationX | TranslationY | RotationZ, which is 0b100011, and every bit of it is a bit of
AllowedDOFsAll. -/
theorem C15_allowed_dofs :
    AllowedDOFsAll = 0b111111 ∧
    AllowedDOFsAll =
      Int.lor (Int.lor (Int.lor (Int.lor (Int.lor AllowedDOFsTranslationX
        AllowedDOFsTranslationY) AllowedDOFsTranslationZ) AllowedDOFsRotationX)
        AllowedDOFsRotationY) AllowedDOFsRotationZ ∧
    [AllowedDOFsTranslationX, AllowedDOFsTranslationY, AllowedDOFsTranslationZ,
      AllowedDOFsRotationX, AllowedDOFsRotationY, AllowedDOFsRotationZ]
      = [2 ^ 0, 2 ^ 1, 2 ^ 2, 2 ^ 3, 2 ^ 4, 2 ^ 5] ∧
    [AllowedDOFsTranslationX, AllowedDOFsTranslationY, AllowedDOFsTranslationZ,
      AllowedDOFsRotationX, AllowedDOFsRotationY, AllowedDOFsRotationZ].Pairwise
      (fun a b => Int.land a b = 0) ∧
    AllowedDOFsPlane2D =
      Int.lor (Int.lor AllowedDOFsTranslationX AllowedDOFsTranslationY)
        AllowedDOFsRotationZ ∧
    AllowedDOFsPlane2D = 0b100011 ∧
    Int.land AllowedDOFsPlane2D AllowedDOFsAll = AllowedDOFsPlane2D := by
  decide

end Jolt

namespace Jolt

/-! ## C16, C17, C18: the wrapper in front of the engine of the specification -/

/-- The engine after one more native call. -/
theorem specEngine_append (calls : List NativeCall) (c : NativeCall) :
    specEngine (calls ++ [c]) = (specEngine calls).step c := by
  simp [specEngine, List.foldl_append]

/-- Storing a velocity for a body the store holds makes the lookup of that body yield the
velocity. -/
theorem find_after_setVelocity (l : List SpecBody) (bi : uintptr) (bodyID : Nat)
    (velocity : Vec3) (h : l.any (fun b => b.names bi bodyID) = true) :
    ∃ b : SpecBody,
      (l.map (fun b => if b.names bi bodyID then b.setVelocity velocity else b)).find?
        (fun b => b.names bi bodyID) = some b ∧ b.velocity = velocity := by
  induction l with
  | nil => simp at h
  | cons x rest ih =>
    by_cases hx : x.names bi bodyID = true
    · refine ⟨x.setVelocity velocity, ?_, rfl⟩
      have hx2 : (x.setVelocity velocity).names bi bodyID = true := hx
      simp [hx, hx2]
    · have hrest : rest.any (fun b => b.names bi bodyID) = true := by
        simpa [hx] using h
      obtain ⟨b, hb, hv⟩ := ih hrest
      exact ⟨b, by simpa [hx] using hb, hv⟩

/-- Removing a body from the simulation a second time changes no record. -/
theorem remove_twice (l : List SpecBody) (bi : uintptr) (bodyID : Nat) :
    (l.map (fun b => if b.names bi bodyID then b.remove else b)).map
        (fun b => if b.names bi bodyID then b.remove else b)
      = l.map (fun b => if b.names bi bodyID then b.remove else b) := by
  rw [List.map_map]
  apply List.map_congr_left
  intro b _
  by_cases hx : b.names bi bodyID = true
  · have hx2 : b.remove.names bi bodyID = true := hx
    simp only [Function.comp, hx, hx2, if_true]
    rfl
  · simp only [Function.comp, hx, if_false]
    simp [hx]

/-- C16: in front of an engine whose velocity getter follows the specification, the round
trip holds through the wrapper: for every body the store holds and every velocity v, the
program `SetLinearVelocity(id, v); GetLinearVelocity(id)` returns v (no update in
between). -/
theorem C16_velocity_round_trip (N : Joltc) (bi : BodyInterface) (bodyID : BodyID)
    (velocity : Vec3) (w : World)
    (hset : FnVar.jphBodyInterfaceSetLinearVelocity ∈ w.bound)
    (hget : FnVar.jphBodyInterfaceGetLinearVelocity ∈ w.bound)
    (hN : N.BodyInterfaceGetLinearVelocity = specGetLinearVelocity)
    (hlive : specHasBody w.calls bi.handle bodyID = true) :
    ((bi.SetLinearVelocity bodyID velocity >>= fun _ =>
        bi.GetLinearVelocity N bodyID).run w).1 = Outcome.returned velocity := by
  have h1 : (bi.SetLinearVelocity bodyID velocity) w
      = (Outcome.returned (), { w with calls := w.calls ++
          [NativeCall.BodyInterfaceSetLinearVelocity bi.handle bodyID velocity] }) :=
    callNative_unit_run _ _ _ hset
  have hstore : specGetLinearVelocity
      (w.calls ++ [NativeCall.BodyInterfaceSetLinearVelocity bi.handle bodyID velocity])
      bi.handle bodyID = velocity := by
    obtain ⟨b, hb, hv⟩ :=
      find_after_setVelocity (specEngine w.calls).bodies bi.handle bodyID velocity hlive
    simp only [specGetLinearVelocity, specEngine_append, SpecEngine.step, hb, hv]
  simp only [GoM.run, GoM.bind_eq]
  rw [andThen_returned _ _ _ _ _ h1]
  simp [BodyInterface.GetLinearVelocity, GoM.andThen, GoM.ret,
    jphBodyInterfaceGetLinearVelocity, callNative, hget, hN, hstore]

/-- C17: RemoveBody called a second time with the same id returns normally, with no error,
and changes nothing: the wrapper hands the call to the library again, and the engine of the
specification, the flag, the module handle and the bound function variables are after the
second call what they were after the first. -/
theorem C17_remove_body_idempotent (bi : BodyInterface) (bodyID : BodyID) (w : World)
    (hbound : FnVar.jphBodyInterfaceRemoveBody ∈ w.bound) :
    ((bi.RemoveBody bodyID).run ((bi.RemoveBody bodyID).run w).2).1 = Outcome.returned () ∧
    specEngine ((bi.RemoveBody bodyID).run ((bi.RemoveBody bodyID).run w).2).2.calls
      = specEngine ((bi.RemoveBody bodyID).run w).2.calls ∧
    ((bi.RemoveBody bodyID).run ((bi.RemoveBody bodyID).run w).2).2.initialized
      = ((bi.RemoveBody bodyID).run w).2.initialized ∧
    ((bi.RemoveBody bodyID).run ((bi.RemoveBody bodyID).run w).2).2.lib
      = ((bi.RemoveBody bodyID).run w).2.lib ∧
    ((bi.RemoveBody bodyID).run ((bi.RemoveBody bodyID).run w).2).2.bound
      = ((bi.RemoveBody bodyID).run w).2.bound ∧
    ((bi.RemoveBody bodyID).run ((bi.RemoveBody bodyID).run w).2).2.calls
      = ((bi.RemoveBody bodyID).run w).2.calls
          ++ [NativeCall.BodyInterfaceRemoveBody bi.handle bodyID] := by
  have h1 : (bi.RemoveBody bodyID).run w
      = (Outcome.returned (), { w with calls := w.calls ++
          [NativeCall.BodyInterfaceRemoveBody bi.handle bodyID] }) :=
    callNative_unit_run _ _ _ hbound
  have h2 : (bi.RemoveBody bodyID).run { w with calls := w.calls ++
        [NativeCall.BodyInterfaceRemoveBody bi.handle bodyID] }
      = (Outcome.returned (), { w with calls := (w.calls ++
          [NativeCall.BodyInterfaceRemoveBody bi.handle bodyID]) ++
          [NativeCall.BodyInterfaceRemoveBody bi.handle bodyID] }) :=
    callNative_unit_run _ _ _ hbound
  rw [h1]
  simp only
  rw [h2]
  refine ⟨rfl, ?_, rfl, rfl, rfl, rfl⟩
  simp only [specEngine_append, SpecEngine.step, remove_twice]

/-- C16 at a concrete input: the live sphere 13 of the example driver, in front of the demo
library with the velocity getter of the specification. -/
theorem C16_velocity_round_trip_witness :
    FnVar.jphBodyInterfaceSetLinearVelocity ∈ sceneWorld.bound ∧
    FnVar.jphBodyInterfaceGetLinearVelocity ∈ sceneWorld.bound ∧
    specJoltc.BodyInterfaceGetLinearVelocity = specGetLinearVelocity ∧
    specHasBody sceneWorld.calls 11 13 = true ∧
    ((BodyInterface.SetLinearVelocity ⟨11⟩ 13 ⟨⟨0x3F800000⟩, ⟨0⟩, ⟨0x41200000⟩⟩ >>= fun _ =>
        BodyInterface.GetLinearVelocity specJoltc ⟨11⟩ 13).run sceneWorld).1
      = Outcome.returned ⟨⟨0x3F800000⟩, ⟨0⟩, ⟨0x41200000⟩⟩ :=
  ⟨sceneWorld_bound _, sceneWorld_bound _, rfl, by rw [sceneWorld_eq]; decide,
    C16_velocity_round_trip specJoltc ⟨11⟩ 13 ⟨⟨0x3F800000⟩, ⟨0⟩, ⟨0x41200000⟩⟩ sceneWorld
      (sceneWorld_bound _) (sceneWorld_bound _) rfl (by rw [sceneWorld_eq]; decide)⟩

/-- C17 at a concrete input: removing the sphere of the example driver twice. -/
theorem C17_remove_body_idempotent_witness :
    FnVar.jphBodyInterfaceRemoveBody ∈ sceneWorld.bound ∧
    ((BodyInterface.RemoveBody ⟨11⟩ 13).run
      ((BodyInterface.RemoveBody ⟨11⟩ 13).run sceneWorld).2).1 = Outcome.returned () ∧
    specEngine ((BodyInterface.RemoveBody ⟨11⟩ 13).run
        ((BodyInterface.RemoveBody ⟨11⟩ 13).run sceneWorld).2).2.calls
      = specEngine ((BodyInterface.RemoveBody ⟨11⟩ 13).run sceneWorld).2.calls :=
  ⟨sceneWorld_bound _,
    (C17_remove_body_idempotent ⟨11⟩ 13 sceneWorld (sceneWorld_bound _)).1,
    (C17_remove_body_idempotent ⟨11⟩ 13 sceneWorld (sceneWorld_bound _)).2.1⟩

/-- One native call keeps the pair table of the engine symmetric. -/
theorem step_pairs_symmetric (e : SpecEngine) (c : NativeCall)
    (h : ∀ f x y, (f, x, y) ∈ e.pairs ↔ (f, y, x) ∈ e.pairs) :
    ∀ f x y, (f, x, y) ∈ (e.step c).pairs ↔ (f, y, x) ∈ (e.step c).pairs := by
  intro f x y
  cases c <;> simp only [SpecEngine.step] <;> try exact h f x y
  · rename_i filter layer1 layer2
    simp only [List.mem_cons, Prod.mk.injEq]
    have := h f x y
    constructor <;> rintro (h1 | h1 | h1) <;> simp_all
  · rename_i filter layer1 layer2
    simp only [List.mem_filter, decide_eq_true_eq, ne_eq, Prod.mk.injEq, not_and]
    have := h f x y
    constructor <;> rintro ⟨h1, h2, h3⟩ <;> refine ⟨by simp_all, ?_, ?_⟩ <;>
      intro hf hx hy <;> simp_all

/-- The pair table of the engine is symmetric after every log. -/
theorem specShouldCollide_symm (calls : List NativeCall) (f : uintptr) (x y : Nat) :
    specShouldCollide calls f x y = specShouldCollide calls f y x := by
  have hsym : ∀ f x y, (f, x, y) ∈ (specEngine calls).pairs
      ↔ (f, y, x) ∈ (specEngine calls).pairs := by
    induction calls using List.reverseRecOn with
    | nil => intro f x y; simp [specEngine]
    | append_singleton l c ih =>
      rw [specEngine_append]
      exact step_pairs_symmetric _ c ih
  simp [specShouldCollide, hsym f x y]

/-- C18: the wrapper hands EnableCollision(a, b) and DisableCollision(a, b) to the library
with the handle and the two layers unchanged, and in the engine of the specification the pair
filter is symmetric: after EnableCollision(a, b) both (a, b) and (b, a) collide, after
DisableCollision(a, b) neither does, and after any log of calls the answer for (x, y) is the
answer for (y, x). -/
theorem C18_pair_filter_symmetric (f : ObjectLayerPairFilter) (a b : ObjectLayer) (w : World)
    (hen : FnVar.jphObjectLayerPairFilterTableEnableCollision ∈ w.bound)
    (hdis : FnVar.jphObjectLayerPairFilterTableDisableCollision ∈ w.bound) :
    ((f.EnableCollision a b).run w
      = (Outcome.returned (), { w with calls := w.calls ++
          [NativeCall.ObjectLayerPairFilterTableEnableCollision f.handle a b] }) ∧
     specShouldCollide ((f.EnableCollision a b).run w).2.calls f.handle a b = true ∧
     specShouldCollide ((f.EnableCollision a b).run w).2.calls f.handle b a = true) ∧
    ((f.DisableCollision a b).run w
      = (Outcome.returned (), { w with calls := w.calls ++
          [NativeCall.ObjectLayerPairFilterTableDisableCollision f.handle a b] }) ∧
     specShouldCollide ((f.DisableCollision a b).run w).2.calls f.handle a b = false ∧
     specShouldCollide ((f.DisableCollision a b).run w).2.calls f.handle b a = false) ∧
    (∀ (calls : List NativeCall) (x y : ObjectLayer),
      specShouldCollide calls f.handle x y = specShouldCollide calls f.handle y x) := by
  have h1 : (f.EnableCollision a b).run w
      = (Outcome.returned (), { w with calls := w.calls ++
          [NativeCall.ObjectLayerPairFilterTableEnableCollision f.handle a b] }) :=
    callNative_unit_run _ _ _ hen
  have h2 : (f.DisableCollision a b).run w
      = (Outcome.returned (), { w with calls := w.calls ++
          [NativeCall.ObjectLayerPairFilterTableDisableCollision f.handle a b] }) :=
    callNative_unit_run _ _ _ hdis
  refine ⟨⟨h1, ?_, ?_⟩, ⟨h2, ?_, ?_⟩, fun calls x y => specShouldCollide_symm calls _ x y⟩
  · rw [h1]; simp [specShouldCollide, specEngine_append, SpecEngine.step]
  · rw [h1]; simp [specShouldCollide, specEngine_append, SpecEngine.step]
  · rw [h2]; simp [specShouldCollide, specEngine_append, SpecEngine.step]
  · rw [h2]; simp [specShouldCollide, specEngine_append, SpecEngine.step]

/-- C18 at a concrete input: the filter of the example driver, where (0, 1) was enabled;
disabling (1, 0) switches off both orders. -/
theorem C18_pair_filter_symmetric_witness :
    FnVar.jphObjectLayerPairFilterTableEnableCollision ∈ sceneWorld.bound ∧
    FnVar.jphObjectLayerPairFilterTableDisableCollision ∈ sceneWorld.bound ∧
    specShouldCollide sceneWorld.calls 6 0 1 = true ∧
    specShouldCollide
      ((ObjectLayerPairFilter.DisableCollision ⟨6⟩ 1 0).run sceneWorld).2.calls 6 1 0 = false ∧
    specShouldCollide
      ((ObjectLayerPairFilter.DisableCollision ⟨6⟩ 1 0).run sceneWorld).2.calls 6 0 1 = false :=
  ⟨sceneWorld_bound _, sceneWorld_bound _, by rw [sceneWorld_eq]; decide,
    (C18_pair_filter_symmetric ⟨6⟩ 1 0 sceneWorld (sceneWorld_bound _)
      (sceneWorld_bound _)).2.1.2.1,
    (C18_pair_filter_symmetric ⟨6⟩ 1 0 sceneWorld (sceneWorld_bound _)
      (sceneWorld_bound _)).2.1.2.2⟩

end Jolt

namespace Jolt

/-! ## C19: every function variable is bound -/

/-- Every function variable of symbols.go occurs among the registrations. -/
theorem registrations_complete (f : FnVar) : f ∈ registrations.map Prod.fst := by
  cases f <;> decide

/-- A call through a function variable changes neither the bound function variables nor the
flag nor the module handle. -/
theorem callNative_frame {α : Type} (f : FnVar) (answer : List NativeCall → α)
    (entry : α → NativeCall) (w : World) :
    ((callNative f answer entry).run w).2.bound = w.bound ∧
    ((callNative f answer entry).run w).2.initialized = w.initialized ∧
    ((callNative f answer entry).run w).2.lib = w.lib := by
  by_cases h : f ∈ w.bound <;> simp [GoM.run, callNative, h]

/-- C19: the registrations of registerSymbols name every function variable declared in
symbols.go exactly once, and no C symbol name twice; so once registerSymbols has returned,
and so once loadLibrary has returned nil, every function variable is bound, a call through
any of them enters the library instead of panicking on a nil function, and such a call
leaves the bindings as they are. -/
theorem C19_register_symbols_binds_all :
    registrations.length = 65 ∧
    (∀ f : FnVar, (registrations.map Prod.fst).count f = 1) ∧
    (registrations.map Prod.snd).Nodup ∧
    (∀ (P : Platform) (handle : uintptr) (w w1 : World),
      (registerSymbols P handle).run w = (Outcome.returned (), w1) →
      ∀ f : FnVar, f ∈ w1.bound) ∧
    (∀ (P : Platform) (w w1 : World),
      (loadLibrary P).run w = (Outcome.returned none, w1) →
      ∀ (f : FnVar) (answer : List NativeCall → uintptr) (entry : uintptr → NativeCall),
        f ∈ w1.bound ∧
        (callNative f answer entry).run w1
          = (Outcome.returned (answer w1.calls),
              { w1 with calls := w1.calls ++ [entry (answer w1.calls)] })) := by
  refine ⟨by decide, ?_, by decide!, ?_, ?_⟩
  · intro f
    cases f <;> decide
  · intro P handle w w1 h f
    obtain ⟨hb, _⟩ := registerEach_bound P handle registrations w w1 h
    obtain ⟨p, hp, hf⟩ := List.mem_map.mp (registrations_complete f)
    exact hf ▸ hb p hp
  · intro P w w1 h f answer entry
    obtain ⟨_, _, hb⟩ := loadLibrary_returned_nil P w w1 h
    obtain ⟨p, hp, hf⟩ := List.mem_map.mp (registrations_complete f)
    have hfb : f ∈ w1.bound := hf ▸ hb p hp
    exact ⟨hfb, callNative_bound _ _ _ _ hfb⟩

/-- C19 at a concrete input: after loadLibrary on the demo host, jphBodyInterfaceSetMotionType
(the last registration) is bound. -/
theorem C19_register_symbols_binds_all_witness :
    (loadLibrary demoHost).run World.fresh = (Outcome.returned none, loadedWorld) ∧
    FnVar.jphBodyInterfaceSetMotionType ∈ loadedWorld.bound ∧
    (registrations.map Prod.fst).count FnVar.jphBodyInterfaceSetMotionType = 1 :=
  ⟨loadLibrary_demoHost,
    (C19_register_symbols_binds_all.2.2.2.2 demoHost World.fresh loadedWorld
      loadLibrary_demoHost FnVar.jphBodyInterfaceSetMotionType (fun _ => 0)
      (fun _ => NativeCall.Shutdown)).1,
    C19_register_symbols_binds_all.2.1 FnVar.jphBodyInterfaceSetMotionType⟩

/-! ## C20: sequences of Init and Shutdown -/

/-- Whatever its outcome, loadLibrary makes no native call and leaves the flag alone. -/
theorem loadLibrary_frame (P : Platform) (w : World) :
    ((loadLibrary P).run w).2.calls = w.calls ∧
    ((loadLibrary P).run w).2.initialized = w.initialized := by
  unfold loadLibrary
  simp only [GoM.run, GoM.bind_eq, GoM.pure_eq]
  have hgw := getLibraryName_world P.GOOS w
  rcases hg : getLibraryName P.GOOS w with ⟨o, w0⟩
  rw [hg] at hgw
  simp only at hgw
  subst hgw
  cases o with
  | panicked p =>
    rw [andThen_panicked _ _ _ _ _ hg]
    exact ⟨rfl, rfl⟩
  | returned name =>
    rw [andThen_returned _ _ _ _ _ hg]
    cases hdll : P.NewLazyDLL name with
    | none =>
      simp only
      rw [andThen_returned _ _ _ _ _ hg]
      exact ⟨rfl, rfl⟩
    | some d =>
      simp only
      cases hh : P.Handle d with
      | panicked p =>
        have h1 : LazyDLL.Handle P d w0 = (Outcome.panicked p, w0) := by
          simp [LazyDLL.Handle, hh]
        rw [andThen_panicked _ _ _ _ _ h1]
        exact ⟨rfl, rfl⟩
      | returned hd =>
        have h1 : ∀ w2 : World, LazyDLL.Handle P d w2 = (Outcome.returned hd, w2) := by
          intro w2; simp [LazyDLL.Handle, hh]
        have h2 : setLib hd w0 = (Outcome.returned (), { w0 with lib := hd }) := rfl
        rw [andThen_returned _ _ _ _ _ (h1 w0), andThen_returned _ _ _ _ _ h2,
          andThen_returned _ _ _ _ _ (h1 _)]
        have hf := registerEach_frame P hd registrations { w0 with lib := hd }
        rcases hr : registerEach P hd registrations { w0 with lib := hd } with ⟨o, w2⟩
        rw [hr] at hf
        have hr2 : registerSymbols P hd { w0 with lib := hd } = (o, w2) := hr
        cases o with
        | panicked p =>
          rw [andThen_panicked _ _ _ _ _ hr2]
          exact ⟨hf.1, hf.2.1⟩
        | returned u =>
          rw [andThen_returned _ _ _ _ _ hr2]
          exact ⟨hf.1, hf.2.1⟩

/-- Function Init on an initialised engine returns nil at once. -/
theorem Init_run_initialized (P : Platform) (w : World) (h : w.initialized = true) :
    (Init P).run w = (Outcome.returned none, w) := by
  have h0 : getInitialized w = (Outcome.returned true, w) := by
    simp [getInitialized, h]
  unfold Init
  simp only [GoM.run, GoM.bind_eq, GoM.pure_eq]
  rw [andThen_returned _ _ _ _ _ h0]
  rfl

/-- Function Init on an uninitialised engine stops where loadLibrary does not return nil. -/
theorem Init_run_of_load_failure (P : Platform) (w w1 : World) (o : Outcome error)
    (hinit : w.initialized = false) (hload : (loadLibrary P).run w = (o, w1))
    (ho : o ≠ Outcome.returned none) :
    ((Init P).run w).2 = w1 ∧ ((Init P).run w).1 = o := by
  have h0 : getInitialized w = (Outcome.returned false, w) := by
    simp [getInitialized, hinit]
  unfold Init
  simp only [GoM.run, GoM.bind_eq, GoM.pure_eq] at hload ⊢
  rw [andThen_returned _ _ _ _ _ h0]
  simp only [Bool.false_eq_true, if_false]
  cases o with
  | panicked p =>
    rw [andThen_panicked _ _ _ _ _ hload]
    exact ⟨rfl, rfl⟩
  | returned e =>
    rw [andThen_returned _ _ _ _ _ hload]
    cases e with
    | none => exact absurd rfl ho
    | some msg => exact ⟨rfl, rfl⟩

/-- Function Shutdown on an uninitialised engine does nothing. -/
theorem Shutdown_run_uninitialized (w : World) (h : w.initialized = false) :
    Shutdown.run w = (Outcome.returned (), w) := by
  have h0 : getInitialized w = (Outcome.returned false, w) := by
    simp [getInitialized, h]
  unfold Shutdown
  simp only [GoM.run, GoM.bind_eq, GoM.pure_eq]
  rw [andThen_returned _ _ _ _ _ h0]
  rfl

/-- Function Shutdown on an initialised engine calls JPH_Shutdown once and clears the
flag. -/
theorem Shutdown_run_initialized (w : World) (h : w.initialized = true)
    (hbound : FnVar.jphShutdown ∈ w.bound) :
    Shutdown.run w
      = (Outcome.returned (),
          { w with calls := w.calls ++ [NativeCall.Shutdown], initialized := false }) := by
  have h0 : getInitialized w = (Outcome.returned true, w) := by
    simp [getInitialized, h]
  have h1 : jphShutdown w
      = (Outcome.returned (), { w with calls := w.calls ++ [NativeCall.Shutdown] }) :=
    callNative_bound _ _ _ _ hbound
  unfold Shutdown
  simp only [GoM.run, GoM.bind_eq, GoM.pure_eq]
  rw [andThen_returned _ _ _ _ _ h0]
  simp only [Bool.not_true, Bool.false_eq_true, if_false]
  rw [andThen_returned _ _ _ _ _ h1]
  rfl

/-- The life-cycle state after one more native call. -/
theorem lifecycleState_append (calls : List NativeCall) (c : NativeCall) :
    lifecycleState (calls ++ [c]) = lifecycleStep (lifecycleState calls) c := by
  simp [lifecycleState, List.foldl_append]

/-- One life-cycle call keeps the log in step with the flag, and keeps JPH_Shutdown bound
while the flag is set. -/
theorem lifecycle_step_invariant (P : Platform) (op : LifecycleOp) (w : World)
    (h1 : lifecycleState w.calls = some w.initialized)
    (h2 : w.initialized = true → FnVar.jphShutdown ∈ w.bound) :
    lifecycleState (op.run P w).calls = some (op.run P w).initialized ∧
    ((op.run P w).initialized = true → FnVar.jphShutdown ∈ (op.run P w).bound) := by
  cases op with
  | init =>
    simp only [LifecycleOp.run]
    cases hi : w.initialized with
    | true =>
      rw [Init_run_initialized P w hi]
      exact ⟨by rw [h1, hi], fun _ => h2 hi⟩
    | false =>
      obtain ⟨hc, hf⟩ := loadLibrary_frame P w
      rcases hl : (loadLibrary P).run w with ⟨o, w1⟩
      rw [hl] at hc hf
      simp only at hc hf
      by_cases ho : o = Outcome.returned none
      · subst ho
        obtain ⟨_, _, hb⟩ := loadLibrary_returned_nil P w w1 hl
        have hsd : FnVar.jphShutdown ∈ w1.bound :=
          hb (FnVar.jphShutdown, "JPH_Shutdown") (by decide)
        rw [Init_run_of_load P w w1 hi hl]
        cases hans : P.native.Init w1.calls
        · simp only [Bool.false_eq_true, if_false]
          refine ⟨?_, ?_⟩
          · rw [lifecycleState_append, hc, h1, hi, hf, hi]
            rfl
          · intro h; rw [hf, hi] at h; exact absurd h (by decide)
        · simp only [if_true]
          refine ⟨?_, fun _ => hsd⟩
          rw [lifecycleState_append, hc, h1, hi]
          rfl
      · obtain ⟨hw, _⟩ := Init_run_of_load_failure P w w1 o hi hl ho
        rw [hw]
        refine ⟨by rw [hc, h1, hi, hf, hi], ?_⟩
        intro h; rw [hf, hi] at h; exact absurd h (by decide)
  | shutdown =>
    simp only [LifecycleOp.run]
    cases hi : w.initialized with
    | false =>
      rw [Shutdown_run_uninitialized w hi]
      refine ⟨by rw [h1, hi], ?_⟩
      intro h; rw [hi] at h; exact absurd h (by decide)
    | true =>
      rw [Shutdown_run_initialized w hi (h2 hi)]
      refine ⟨?_, ?_⟩
      · rw [lifecycleState_append, h1, hi]
        rfl
      · intro h; exact absurd h (by simp)

/-- A sequence of life-cycle calls keeps the log in step with the flag. -/
theorem lifecycle_invariant (P : Platform) (ops : List LifecycleOp) (w : World)
    (h1 : lifecycleState w.calls = some w.initialized)
    (h2 : w.initialized = true → FnVar.jphShutdown ∈ w.bound) :
    lifecycleState (runLifecycle P ops w).calls = some (runLifecycle P ops w).initialized ∧
    ((runLifecycle P ops w).initialized = true →
      FnVar.jphShutdown ∈ (runLifecycle P ops w).bound) := by
  induction ops generalizing w with
  | nil => exact ⟨h1, h2⟩
  | cons op rest ih =>
    obtain ⟨k1, k2⟩ := lifecycle_step_invariant P op w h1 h2
    exact ih (op.run P w) k1 k2

/-- C20: after every sequence of Init and Shutdown calls from the uninitialised state, on
every host, the log of native calls is in turn (no JPH_Init came while the engine was
initialised, no JPH_Shutdown while it was not) and the state it leaves the native engine in
is the flag; and in the world reached, Init on an initialised engine returns nil and changes
nothing (no loading, no JPH_Init), Shutdown on an uninitialised engine returns and changes
nothing, and Shutdown on an initialised engine calls JPH_Shutdown exactly once and clears the
flag. -/
theorem C20_init_shutdown_in_turn (P : Platform) (ops : List LifecycleOp) :
    lifecycleState (runLifecycle P ops World.fresh).calls
      = some (runLifecycle P ops World.fresh).initialized ∧
    ((runLifecycle P ops World.fresh).initialized = true →
      (Init P).run (runLifecycle P ops World.fresh)
        = (Outcome.returned none, runLifecycle P ops World.fresh)) ∧
    ((runLifecycle P ops World.fresh).initialized = false →
      Shutdown.run (runLifecycle P ops World.fresh)
        = (Outcome.returned (), runLifecycle P ops World.fresh)) ∧
    ((runLifecycle P ops World.fresh).initialized = true →
      Shutdown.run (runLifecycle P ops World.fresh)
        = (Outcome.returned (),
            { runLifecycle P ops World.fresh with
              calls := (runLifecycle P ops World.fresh).calls ++ [NativeCall.Shutdown],
              initialized := false })) := by
  obtain ⟨k1, k2⟩ := lifecycle_invariant P ops World.fresh rfl
    (fun h => absurd h (by decide))
  exact ⟨k1, fun h => Init_run_initialized P _ h, fun h => Shutdown_run_uninitialized _ h,
    fun h => Shutdown_run_initialized _ h (k2 h)⟩

/-- The sequence Init, Init, Shutdown, Shutdown, Init on the demo host makes exactly three
native calls and ends initialised. -/
theorem demo_lifecycle :
    (runLifecycle demoHost [LifecycleOp.init, LifecycleOp.init, LifecycleOp.shutdown,
      LifecycleOp.shutdown, LifecycleOp.init] World.fresh).calls
      = [NativeCall.Init true, NativeCall.Shutdown, NativeCall.Init true] ∧
    (runLifecycle demoHost [LifecycleOp.init, LifecycleOp.init, LifecycleOp.shutdown,
      LifecycleOp.shutdown, LifecycleOp.init] World.fresh).initialized = true := by
  decide!

/-- C20 at a concrete input: that sequence; the doubled Init and the doubled Shutdown each
reached the library once, and a further Shutdown calls JPH_Shutdown. -/
theorem C20_init_shutdown_in_turn_witness :
    (runLifecycle demoHost [LifecycleOp.init, LifecycleOp.init, LifecycleOp.shutdown,
      LifecycleOp.shutdown, LifecycleOp.init] World.fresh).calls
      = [NativeCall.Init true, NativeCall.Shutdown, NativeCall.Init true] ∧
    (runLifecycle demoHost [LifecycleOp.init, LifecycleOp.init, LifecycleOp.shutdown,
      LifecycleOp.shutdown, LifecycleOp.init] World.fresh).initialized = true ∧
    lifecycleState (runLifecycle demoHost [LifecycleOp.init, LifecycleOp.init,
      LifecycleOp.shutdown, LifecycleOp.shutdown, LifecycleOp.init] World.fresh).calls
      = some (runLifecycle demoHost [LifecycleOp.init, LifecycleOp.init,
          LifecycleOp.shutdown, LifecycleOp.shutdown, LifecycleOp.init]
          World.fresh).initialized ∧
    Shutdown.run (runLifecycle demoHost [LifecycleOp.init, LifecycleOp.init,
      LifecycleOp.shutdown, LifecycleOp.shutdown, LifecycleOp.init] World.fresh)
      = (Outcome.returned (),
          { runLifecycle demoHost [LifecycleOp.init, LifecycleOp.init, LifecycleOp.shutdown,
              LifecycleOp.shutdown, LifecycleOp.init] World.fresh with
            calls := (runLifecycle demoHost [LifecycleOp.init, LifecycleOp.init,
              LifecycleOp.shutdown, LifecycleOp.shutdown, LifecycleOp.init]
              World.fresh).calls ++ [NativeCall.Shutdown],
            initialized := false }) :=
  ⟨demo_lifecycle.1, demo_lifecycle.2,
    (C20_init_shutdown_in_turn demoHost _).1,
    (C20_init_shutdown_in_turn demoHost _).2.2.2 demo_lifecycle.2⟩

end Jolt

namespace Jolt

/-! ## C21: releasing a wrapper -/

/-- JobSystem.Close on a non-zero handle. -/
theorem JobSystem_Close_run_nonzero (js : JobSystem) (w : World) (hs : js.handle ≠ 0)
    (h : FnVar.jphJobSystemDestroy ∈ w.bound) :
    js.Close.run w
      = (Outcome.returned { js with handle := 0 },
          { w with calls := w.calls ++ [NativeCall.JobSystemDestroy js.handle] }) := by
  simp [JobSystem.Close, GoM.run, GoM.andThen, GoM.ret, jphJobSystemDestroy,
    callNative_bound _ _ _ _ h, hs]

/-- JobSystem.Close on a zero handle. -/
theorem JobSystem_Close_run_zero (js : JobSystem) (w : World) (hs : js.handle = 0) :
    js.Close.run w = (Outcome.returned js, w) := by
  simp [JobSystem.Close, GoM.run, GoM.ret, hs]

/-- PhysicsSystem.Close on a non-zero handle. -/
theorem PhysicsSystem_Close_run_nonzero (ps : PhysicsSystem) (w : World) (hs : ps.handle ≠ 0)
    (h : FnVar.jphPhysicsSystemDestroy ∈ w.bound) :
    ps.Close.run w
      = (Outcome.returned { ps with handle := 0 },
          { w with calls := w.calls ++ [NativeCall.PhysicsSystemDestroy ps.handle] }) := by
  simp [PhysicsSystem.Close, GoM.run, GoM.andThen, GoM.ret, jphPhysicsSystemDestroy,
    callNative_bound _ _ _ _ h, hs]

/-- PhysicsSystem.Close on a zero handle. -/
theorem PhysicsSystem_Close_run_zero (ps : PhysicsSystem) (w : World) (hs : ps.handle = 0) :
    ps.Close.run w = (Outcome.returned ps, w) := by
  simp [PhysicsSystem.Close, GoM.run, GoM.ret, hs]

/-- BodyCreationSettings.Close on a non-zero handle. -/
theorem BodyCreationSettings_Close_run_nonzero (bcs : BodyCreationSettings) (w : World)
    (hs : bcs.handle ≠ 0) (h : FnVar.jphBodyCreationSettingsDestroy ∈ w.bound) :
    bcs.Close.run w
      = (Outcome.returned { bcs with handle := 0 },
          { w with calls := w.calls ++ [NativeCall.BodyCreationSettingsDestroy bcs.handle] }) := by
  simp [BodyCreationSettings.Close, GoM.run, GoM.andThen, GoM.ret,
    jphBodyCreationSettingsDestroy, callNative_bound _ _ _ _ h, hs]

/-- BodyCreationSettings.Close on a zero handle. -/
theorem BodyCreationSettings_Close_run_zero (bcs : BodyCreationSettings) (w : World)
    (hs : bcs.handle = 0) : bcs.Close.run w = (Outcome.returned bcs, w) := by
  simp [BodyCreationSettings.Close, GoM.run, GoM.ret, hs]

/-- When one call of a method brings the wrapper to a state on which every further call
does nothing, any positive number of calls in a row does what one call does. -/
theorem repeatGo_settles {α : Type} (method : α → GoM α) (x x0 : α) (w w1 : World)
    (hfirst : (method x).run w = (Outcome.returned x0, w1))
    (hrest : ∀ w2 : World, (method x0).run w2 = (Outcome.returned x0, w2)) (n : Nat) :
    (repeatGo method (n + 1) x).run w = (Outcome.returned x0, w1) := by
  have hfix : ∀ (k : Nat) (w2 : World),
      (repeatGo method k x0).run w2 = (Outcome.returned x0, w2) := by
    intro k
    induction k with
    | zero => intro w2; rfl
    | succ k ih =>
      intro w2
      have := hrest w2
      simp only [GoM.run] at this ih ⊢
      simp only [repeatGo, GoM.bind_eq]
      rw [andThen_returned _ _ _ _ _ this]
      exact ih w2
  simp only [GoM.run] at hfirst hfix ⊢
  simp only [repeatGo, GoM.bind_eq]
  rw [andThen_returned _ _ _ _ _ hfirst]
  exact hfix n w1

/-- Any positive number of JobSystem.Close calls in a row does what one does. -/
theorem JobSystem_Close_repeat (js : JobSystem) (w : World)
    (h : FnVar.jphJobSystemDestroy ∈ w.bound) (n : Nat) :
    (repeatGo JobSystem.Close (n + 1) js).run w = js.Close.run w := by
  by_cases hs : js.handle = 0
  · rw [JobSystem_Close_run_zero js w hs]
    exact repeatGo_settles _ js js w w (JobSystem_Close_run_zero js w hs)
      (fun w2 => JobSystem_Close_run_zero js w2 hs) n
  · rw [JobSystem_Close_run_nonzero js w hs h]
    exact repeatGo_settles _ js _ w _ (JobSystem_Close_run_nonzero js w hs h)
      (fun w2 => JobSystem_Close_run_zero _ w2 rfl) n

/-- Any positive number of PhysicsSystem.Close calls in a row does what one does. -/
theorem PhysicsSystem_Close_repeat (ps : PhysicsSystem) (w : World)
    (h : FnVar.jphPhysicsSystemDestroy ∈ w.bound) (n : Nat) :
    (repeatGo PhysicsSystem.Close (n + 1) ps).run w = ps.Close.run w := by
  by_cases hs : ps.handle = 0
  · rw [PhysicsSystem_Close_run_zero ps w hs]
    exact repeatGo_settles _ ps ps w w (PhysicsSystem_Close_run_zero ps w hs)
      (fun w2 => PhysicsSystem_Close_run_zero ps w2 hs) n
  · rw [PhysicsSystem_Close_run_nonzero ps w hs h]
    exact repeatGo_settles _ ps _ w _ (PhysicsSystem_Close_run_nonzero ps w hs h)
      (fun w2 => PhysicsSystem_Close_run_zero _ w2 rfl) n

/-- Any positive number of BodyCreationSettings.Close calls in a row does what one does. -/
theorem BodyCreationSettings_Close_repeat (bcs : BodyCreationSettings) (w : World)
    (h : FnVar.jphBodyCreationSettingsDestroy ∈ w.bound) (n : Nat) :
    (repeatGo BodyCreationSettings.Close (n + 1) bcs).run w = bcs.Close.run w := by
  by_cases hs : bcs.handle = 0
  · rw [BodyCreationSettings_Close_run_zero bcs w hs]
    exact repeatGo_settles _ bcs bcs w w (BodyCreationSettings_Close_run_zero bcs w hs)
      (fun w2 => BodyCreationSettings_Close_run_zero bcs w2 hs) n
  · rw [BodyCreationSettings_Close_run_nonzero bcs w hs h]
    exact repeatGo_settles _ bcs _ w _ (BodyCreationSettings_Close_run_nonzero bcs w hs h)
      (fun w2 => BodyCreationSettings_Close_run_zero _ w2 rfl) n

/-- Any positive number of Shape.Destroy calls in a row does what one does. -/
theorem Shape.Destroy_repeat (s : Shape) (w : World)
    (h : FnVar.jphShapeDestroy ∈ w.bound) (n : Nat) :
    (repeatGo Shape.Destroy (n + 1) s).run w = s.Destroy.run w := by
  by_cases hs : s.handle = 0
  · rw [Shape.Destroy_run_zero s w hs]
    exact repeatGo_settles _ s s w w (Shape.Destroy_run_zero s w hs)
      (fun w2 => Shape.Destroy_run_zero s w2 hs) n
  · rw [Shape.Destroy_run_nonzero s w hs h]
    exact repeatGo_settles _ s _ w _ (Shape.Destroy_run_nonzero s w hs h)
      (fun w2 => Shape.Destroy_run_zero _ w2 rfl) n

/-- C21: for JobSystem.Close, PhysicsSystem.Close, BodyCreationSettings.Close and
Shape.Destroy alike: on a wrapper with a non-zero handle the call returns normally after
exactly one native call, the destroy function of its kind on that handle, and leaves the
handle of the wrapper zero (the other fields as they were); on a wrapper whose handle is zero
it returns with the wrapper and the world unchanged; and calling it any positive number of
times in a row on one wrapper ends in the wrapper and the world that a single call leaves, so
the operation is idempotent and the native resource is destroyed at most once. -/
theorem C21_release_destroys_at_most_once (js : JobSystem) (ps : PhysicsSystem)
    (bcs : BodyCreationSettings) (s : Shape) (w : World)
    (hjs : FnVar.jphJobSystemDestroy ∈ w.bound)
    (hps : FnVar.jphPhysicsSystemDestroy ∈ w.bound)
    (hbcs : FnVar.jphBodyCreationSettingsDestroy ∈ w.bound)
    (hs : FnVar.jphShapeDestroy ∈ w.bound) :
    ((js.handle ≠ 0 → js.Close.run w
        = (Outcome.returned { js with handle := 0 },
            { w with calls := w.calls ++ [NativeCall.JobSystemDestroy js.handle] })) ∧
     (js.handle = 0 → js.Close.run w = (Outcome.returned js, w)) ∧
     (∀ n : Nat, (repeatGo JobSystem.Close (n + 1) js).run w = js.Close.run w)) ∧
    ((ps.handle ≠ 0 → ps.Close.run w
        = (Outcome.returned { ps with handle := 0 },
            { w with calls := w.calls ++ [NativeCall.PhysicsSystemDestroy ps.handle] })) ∧
     (ps.handle = 0 → ps.Close.run w = (Outcome.returned ps, w)) ∧
     (∀ n : Nat, (repeatGo PhysicsSystem.Close (n + 1) ps).run w = ps.Close.run w)) ∧
    ((bcs.handle ≠ 0 → bcs.Close.run w
        = (Outcome.returned { bcs with handle := 0 },
            { w with calls := w.calls
                ++ [NativeCall.BodyCreationSettingsDestroy bcs.handle] })) ∧
     (bcs.handle = 0 → bcs.Close.run w = (Outcome.returned bcs, w)) ∧
     (∀ n : Nat,
        (repeatGo BodyCreationSettings.Close (n + 1) bcs).run w = bcs.Close.run w)) ∧
    ((s.handle ≠ 0 → s.Destroy.run w
        = (Outcome.returned { s with handle := 0 },
            { w with calls := w.calls ++ [NativeCall.ShapeDestroy s.handle] })) ∧
     (s.handle = 0 → s.Destroy.run w = (Outcome.returned s, w)) ∧
     (∀ n : Nat, (repeatGo Shape.Destroy (n + 1) s).run w = s.Destroy.run w)) :=
  ⟨⟨fun h => JobSystem_Close_run_nonzero js w h hjs, fun h => JobSystem_Close_run_zero js w h,
      fun n => JobSystem_Close_repeat js w hjs n⟩,
    ⟨fun h => PhysicsSystem_Close_run_nonzero ps w h hps,
      fun h => PhysicsSystem_Close_run_zero ps w h,
      fun n => PhysicsSystem_Close_repeat ps w hps n⟩,
    ⟨fun h => BodyCreationSettings_Close_run_nonzero bcs w h hbcs,
      fun h => BodyCreationSettings_Close_run_zero bcs w h,
      fun n => BodyCreationSettings_Close_repeat bcs w hbcs n⟩,
    ⟨fun h => Shape.Destroy_run_nonzero s w h hs, fun h => Shape.Destroy_run_zero s w h,
      fun n => Shape.Destroy_repeat s w hs n⟩⟩

/-- C21 at a concrete input: the job system (handle 2) and the physics system (handle 10)
of the example driver; three Close calls in a row on the physics system destroy it once. -/
theorem C21_release_destroys_at_most_once_witness :
    FnVar.jphJobSystemDestroy ∈ sceneWorld.bound ∧
    FnVar.jphPhysicsSystemDestroy ∈ sceneWorld.bound ∧
    FnVar.jphBodyCreationSettingsDestroy ∈ sceneWorld.bound ∧
    FnVar.jphShapeDestroy ∈ sceneWorld.bound ∧
    (JobSystem.Close ⟨2⟩).run sceneWorld
      = (Outcome.returned ⟨0⟩,
          { sceneWorld with calls := sceneWorld.calls ++ [NativeCall.JobSystemDestroy 2] }) ∧
    (BodyCreationSettings.Close ⟨0⟩).run sceneWorld = (Outcome.returned ⟨0⟩, sceneWorld) ∧
    (repeatGo PhysicsSystem.Close 3 ⟨10, some ⟨3⟩, some ⟨6⟩, some ⟨9⟩⟩).run sceneWorld
      = (Outcome.returned ⟨0, some ⟨3⟩, some ⟨6⟩, some ⟨9⟩⟩,
          { sceneWorld with
            calls := sceneWorld.calls ++ [NativeCall.PhysicsSystemDestroy 10] }) :=
  ⟨sceneWorld_bound _, sceneWorld_bound _, sceneWorld_bound _, sceneWorld_bound _,
    (C21_release_destroys_at_most_once ⟨2⟩ ⟨10, some ⟨3⟩, some ⟨6⟩, some ⟨9⟩⟩ ⟨0⟩ ⟨12⟩
      sceneWorld (sceneWorld_bound _) (sceneWorld_bound _) (sceneWorld_bound _)
      (sceneWorld_bound _)).1.1 (by decide),
    (C21_release_destroys_at_most_once ⟨2⟩ ⟨10, some ⟨3⟩, some ⟨6⟩, some ⟨9⟩⟩ ⟨0⟩ ⟨12⟩
      sceneWorld (sceneWorld_bound _) (sceneWorld_bound _) (sceneWorld_bound _)
      (sceneWorld_bound _)).2.2.1.2.1 rfl,
    ((C21_release_destroys_at_most_once ⟨2⟩ ⟨10, some ⟨3⟩, some ⟨6⟩, some ⟨9⟩⟩ ⟨0⟩ ⟨12⟩
      sceneWorld (sceneWorld_bound _) (sceneWorld_bound _) (sceneWorld_bound _)
      (sceneWorld_bound _)).2.1.2.2 2).trans
      ((C21_release_destroys_at_most_once ⟨2⟩ ⟨10, some ⟨3⟩, some ⟨6⟩, some ⟨9⟩⟩ ⟨0⟩ ⟨12⟩
        sceneWorld (sceneWorld_bound _) (sceneWorld_bound _) (sceneWorld_bound _)
        (sceneWorld_bound _)).2.1.1 (by decide))⟩

/-! ## C22: the number of collision steps at the boundary -/

/-- The conversion to int32 keeps a value in range, always lands in range, and changes a
value by a multiple of 2^32 only. -/
theorem toInt32_spec (x : Int) :
    (-2 ^ 31 ≤ x ∧ x < 2 ^ 31 → toInt32 x = x) ∧
    (-2 ^ 31 ≤ toInt32 x ∧ toInt32 x < 2 ^ 31) ∧
    (toInt32 x - x) % 2 ^ 32 = 0 := by
  unfold toInt32
  refine ⟨?_, ?_, ?_⟩ <;> omega

/-- C22: PhysicsSystem.Update hands collisionSteps to the native update converted to int32
and reports no error for any value: it returns normally what the library answered, and the
one native call it makes carries the system handle and the job-system handle unchanged, the
time step as purego passes a float32 by value and, as collisionSteps, the number itself when
that lies in [-2^31, 2^31 - 1], and in every case the one number of that range congruent to
it modulo 2^32 (so 2^32 + 1 goes over as 1). -/
theorem C22_collision_steps_as_int32 (N : Joltc) (ps : PhysicsSystem) (deltaTime : float32)
    (collisionSteps : Int) (jobSystem : JobSystem) (w : World)
    (hbound : FnVar.jphPhysicsSystemUpdate ∈ w.bound) :
    ∃ (passed : Int) (ret : Int),
      (PhysicsSystem.Update N ps deltaTime collisionSteps jobSystem).run w
        = (Outcome.returned ret,
            { w with calls := w.calls ++
              [NativeCall.PhysicsSystemUpdate ps.handle (passFloat32 deltaTime) passed
                jobSystem.handle ret] }) ∧
      (-2 ^ 31 ≤ collisionSteps ∧ collisionSteps < 2 ^ 31 → passed = collisionSteps) ∧
      (-2 ^ 31 ≤ passed ∧ passed < 2 ^ 31) ∧
      (passed - collisionSteps) % 2 ^ 32 = 0 ∧
      (collisionSteps = 2 ^ 32 + 1 → passed = 1) := by
  obtain ⟨h1, h2, h3⟩ := toInt32_spec collisionSteps
  refine ⟨toInt32 collisionSteps,
    N.PhysicsSystemUpdate w.calls ps.handle (passFloat32 deltaTime) (toInt32 collisionSteps)
      jobSystem.handle, ?_, h1, h2, h3, ?_⟩
  · simp [PhysicsSystem.Update, GoM.run, GoM.andThen, GoM.ret, jphPhysicsSystemUpdate,
      callNative_bound _ _ _ _ hbound]
  · intro h
    subst h
    decide

/-- C22 at a concrete input: in the demo world an update with collisionSteps = 2^32 + 1
reaches the library with collisionSteps = 1 and returns its answer. -/
theorem C22_collision_steps_as_int32_witness :
    FnVar.jphPhysicsSystemUpdate ∈ demoWorld.bound ∧
    ∃ (passed : Int) (ret : Int),
      (PhysicsSystem.Update demoJoltc ⟨10, none, none, none⟩ ⟨0x3C888889⟩ (2 ^ 32 + 1)
          ⟨2⟩).run demoWorld
        = (Outcome.returned ret,
            { demoWorld with calls := demoWorld.calls ++
              [NativeCall.PhysicsSystemUpdate 10 (passFloat32 ⟨0x3C888889⟩) passed 2 ret] }) ∧
      (-2 ^ 31 ≤ (2 ^ 32 + 1 : Int) ∧ (2 ^ 32 + 1 : Int) < 2 ^ 31 → passed = 2 ^ 32 + 1) ∧
      (-2 ^ 31 ≤ passed ∧ passed < 2 ^ 31) ∧
      (passed - (2 ^ 32 + 1)) % 2 ^ 32 = 0 ∧
      ((2 ^ 32 + 1 : Int) = 2 ^ 32 + 1 → passed = 1) :=
  ⟨demoWorld_bound _,
    C22_collision_steps_as_int32 demoJoltc ⟨10, none, none, none⟩ ⟨0x3C888889⟩ (2 ^ 32 + 1)
      ⟨2⟩ demoWorld (demoWorld_bound _)⟩

end Jolt
